import Mathlib

/-!
Shallow embedding of the reddit_data_pipeline repository
(src/ingestion/reddit_extractor.py, src/processing/data_validator.py,
src/processing/data_transformer.py, src/pipelines/reddit_pipeline.py).

A pandas DataFrame is modelled column-major: a list of named, typed columns of
scalar cells, plus an explicit row count (a DataFrame can have zero columns but
a positive row count and vice versa).  Python None and float NaN are kept as
distinct null cells because pandas treats them differently under `astype(str)`,
`astype(bool)` and DataFrame construction.  Machine floats are modelled as
exact rationals; pandas dtypes are modelled explicitly because several source
operations (`.str` accessors, element-wise comparisons on object columns)
raise or not depending on the column dtype.
-/

namespace RedditPipelineModel

/-- Executable rational addition (the library arithmetic on ℚ is opaque to
kernel evaluation; `qAdd_eq` below identifies this with `+`). -/
def qAdd (a b : ℚ) : ℚ := Rat.divInt (a.num * b.den + b.num * a.den) (a.den * b.den)

/-- Executable rational multiplication; `qMul_eq` identifies it with `*`. -/
def qMul (a b : ℚ) : ℚ := Rat.divInt (a.num * b.num) (a.den * b.den)

/-- Executable rational division; `qDiv_eq` identifies it with `/` (division
by zero yields zero, as for `/` on ℚ). -/
def qDiv (a b : ℚ) : ℚ := Rat.divInt (a.num * b.den) (a.den * b.num)

/-- Python str.strip(): drop leading and trailing whitespace. -/
def pyStrip (s : String) : String :=
  ⟨((s.data.dropWhile Char.isWhitespace).reverse.dropWhile Char.isWhitespace).reverse⟩

/-- Number of whitespace-separated words, as counted by
`len(s.split())` in Python: the second flag records being inside a word. -/
def wordsAux : List Char → Bool → Nat
  | [], _ => 0
  | c :: cs, inw =>
    if c.isWhitespace then wordsAux cs false
    else (if inw then 0 else 1) + wordsAux cs true

def pyWordCount (s : String) : Nat := wordsAux s.data false

def parseNatChars (cs : List Char) : Option Nat :=
  if cs.isEmpty then Option.none
  else if cs.all Char.isDigit then some (cs.foldl (fun n c => n * 10 + (c.toNat - 48)) 0)
  else Option.none

/-- Integer parsing of a decimal string, as by Python `int(str)`. -/
def parseIntStr (s : String) : Option ℤ :=
  match s.data with
  | '-' :: rest => (parseNatChars rest).map (fun n => -(n : ℤ))
  | '+' :: rest => (parseNatChars rest).map (fun n => (n : ℤ))
  | cs => (parseNatChars cs).map (fun n => (n : ℤ))

/-- Scalar cell of a DataFrame: Python None, float NaN (also standing for NaT),
a string, a number (int or float, as an exact rational), a bool, or a
datetime64 value in epoch seconds. -/
inductive Cell where
  | none
  | nan
  | str (s : String)
  | num (q : ℚ)
  | bool (b : Bool)
  | ts (t : ℤ)
  deriving DecidableEq, Repr

/-- Column dtype, mirroring the pandas dtypes this code can produce. -/
inductive Dtype where
  | object
  | int64
  | float64
  | boolDt
  | datetime64
  | category
  deriving DecidableEq, Repr

/-- pandas isnull: true for None, NaN (and NaT). -/
def Cell.isNull : Cell → Bool
  | .none => true
  | .nan => true
  | _ => false

/-- Python truthiness, as applied by `astype(bool)` element-wise on an object
column: None is falsy, float NaN is truthy, strings by non-emptiness, numbers
by non-zeroness. -/
def Cell.truthy : Cell → Bool
  | .none => false
  | .nan => true
  | .str s => !s.data.isEmpty
  | .num q => decide (q ≠ 0)
  | .bool b => b
  | .ts _ => true

/-- Rendering of an integer-valued rational, used by `pyStr`. -/
def numRender (q : ℚ) : String :=
  if q.den = 1 then toString q.num else toString q.num ++ "/" ++ toString q.den

/-- Python str() of a cell, as applied by `astype(str)`: None renders as
"None" (not "nan"), NaN as "nan".  The numeric rendering differs from CPython
for non-integral floats but is never empty, never whitespace-only and never
equal to "nan", which is all the source relies on. -/
def Cell.pyStr : Cell → String
  | .none => "None"
  | .nan => "nan"
  | .str s => s
  | .num q => numRender q
  | .bool b => if b then "True" else "False"
  | .ts t => "epoch:" ++ toString t

/-- A named, typed column with its cells. -/
structure Col where
  name : String
  dtype : Dtype
  vals : List Cell
  deriving DecidableEq, Repr

/-- Column-major DataFrame with an explicit row count. -/
structure DataFrame where
  nrows : Nat
  cols : List Col
  deriving DecidableEq, Repr

/-- Well-formedness: every column has exactly `nrows` cells. -/
def DataFrame.wf (df : DataFrame) : Prop :=
  ∀ c ∈ df.cols, c.vals.length = df.nrows

instance (df : DataFrame) : Decidable df.wf := by
  unfold DataFrame.wf; infer_instance

def emptyDataFrame : DataFrame := ⟨0, []⟩

def colNames (df : DataFrame) : List String := df.cols.map Col.name

def hasCol (df : DataFrame) (c : String) : Bool := (colNames df).contains c

def findCol (df : DataFrame) (c : String) : Option Col :=
  df.cols.find? (fun col => col.name = c)

def getCol (df : DataFrame) (c : String) : List Cell :=
  match findCol df c with
  | some col => col.vals
  | Option.none => []

def colDtype (df : DataFrame) (c : String) : Option Dtype :=
  (findCol df c).map Col.dtype

/-- pandas `df.empty`: true iff either axis has length 0. -/
def isEmptyPd (df : DataFrame) : Bool := df.nrows == 0 || df.cols.isEmpty

/-- Assignment `df[c] = series`: replaces the values and dtype of an existing
column, or appends a new column at the end (pandas column-assignment
semantics). -/
def setCol (df : DataFrame) (c : String) (vs : List Cell) (d : Dtype) : DataFrame :=
  if hasCol df c then
    { df with cols := df.cols.map (fun col => if col.name = c then ⟨c, d, vs⟩ else col) }
  else
    { df with cols := df.cols ++ [⟨c, d, vs⟩] }

/-- Keep the elements of a list selected by a boolean mask. -/
def maskFilter : List Bool → List α → List α
  | b :: bs, x :: xs => if b then x :: maskFilter bs xs else maskFilter bs xs
  | _, _ => []

/-- Boolean row filter `df = df[mask]`: keeps the masked rows of every column
and adjusts the row count. -/
def applyMask (df : DataFrame) (mask : List Bool) : DataFrame :=
  { nrows := (mask.filter id).length,
    cols := df.cols.map (fun col => ⟨col.name, col.dtype, maskFilter mask col.vals⟩) }

/-- Keep-first deduplication of a list (reference definition). -/
def keepFirst [DecidableEq α] : List α → List α
  | [] => []
  | x :: xs => x :: (keepFirst xs).filter (fun y => y ≠ x)

/-- Selection mask of `drop_duplicates(keep=first)` / `duplicated`: true at
first occurrences, false at later duplicates. -/
def keepMask [DecidableEq α] (seen : List α) : List α → List Bool
  | [] => []
  | k :: ks => if k ∈ seen then false :: keepMask seen ks else true :: keepMask (k :: seen) ks

/-- pandas hashes every null alike when detecting duplicates: normalize None
(and NaT) to NaN before comparing keys. -/
def normKey (c : Cell) : Cell := if c.isNull then Cell.nan else c

/-- Count of later duplicates, as computed by `duplicated().sum()`. -/
def dupCount (ks : List Cell) : Nat := ks.length - (keepFirst ks).length

/-- Single-quote character, used when rendering Python list literals inside
error messages. -/
def sq : String := String.singleton (Char.ofNat 39)

/-- Python repr of a list of strings, as interpolated by the f-strings of the
validator. -/
def pyListRepr (l : List String) : String :=
  "[" ++ String.intercalate ", " (l.map (fun s => sq ++ s ++ sq)) ++ "]"

/-- Two-decimal rendering of a rational, standing in for the Python
format specifier on floats (rounding mode abstracted as half-up). -/
def fmt2 (q : ℚ) : String :=
  let m : ℤ := ⌊qAdd (qMul q 100) (Rat.divInt 1 2)⌋
  toString (m / 100) ++ "." ++ toString ((m % 100) / 10) ++ toString (m % 10)

/-- Structured form of every error/warning string the validator can emit.
`render` maps each constructor to the f-string of the source. -/
inductive VMsg where
  | dfEmpty
  | missingRequired (cols : List String)
  | unexpectedCols (cols : List String)
  | idNotString
  | scoreNotNumeric
  | tooFewRows (n minR : Nat)
  | dupIds (n : Nat)
  | nullPctError (col : String) (pct maxPct : ℚ)
  | nullPctWarn (col : String) (pct : ℚ)
  | emptyTitles (n : Nat)
  | highNegScores (n : Nat)
  | negComments (n : Nat)
  | invalidRatioCount (n : Nat)
  | futureDates (n : Nat)
  | noSubreddits
  | singleSubreddit
  | missingColumn (c : String)
  | typeMismatch (c actual expected : String)
  deriving DecidableEq, Repr

def VMsg.render : VMsg → String
  | .dfEmpty => "DataFrame is empty"
  | .missingRequired cols => "Missing required columns: " ++ pyListRepr cols
  | .unexpectedCols cols => "Unexpected columns found: " ++ pyListRepr cols
  | .idNotString => "Column " ++ sq ++ "id" ++ sq ++ " should be string type"
  | .scoreNotNumeric => "Column " ++ sq ++ "score" ++ sq ++ " should be numeric"
  | .tooFewRows n minR =>
      "DataFrame has " ++ toString n ++ " rows, minimum required is " ++ toString minR
  | .dupIds n => "Found " ++ toString n ++ " duplicate IDs"
  | .nullPctError col pct maxPct =>
      "Column " ++ sq ++ col ++ sq ++ " has " ++ fmt2 pct ++ "% null values (max allowed: "
        ++ fmt2 maxPct ++ "%)"
  | .nullPctWarn col pct =>
      "Column " ++ sq ++ col ++ sq ++ " has " ++ fmt2 pct ++ "% null values"
  | .emptyTitles n => "Found " ++ toString n ++ " posts with empty titles"
  | .highNegScores n => "High percentage of negative scores: " ++ toString n
  | .negComments n => "Found " ++ toString n ++ " posts with negative comment counts"
  | .invalidRatioCount n => "Found " ++ toString n ++ " posts with invalid upvote ratios"
  | .futureDates n => "Found " ++ toString n ++ " posts with future dates"
  | .noSubreddits => "No subreddits found in data"
  | .singleSubreddit => "Data contains posts from only one subreddit"
  | .missingColumn c => "Missing column: " ++ c
  | .typeMismatch c actual expected =>
      "Column " ++ sq ++ c ++ sq ++ " has type " ++ actual ++ ", expected " ++ expected

/-- Value stored in the stats dict of a ValidationResult. -/
inductive StatVal where
  | natS (n : Nat)
  | pctDict (d : List (String × ℚ))
  | distDict (d : List (Cell × Nat))
  | rangeDict (lo hi : String)
  deriving DecidableEq, Repr

abbrev Stats := List (String × StatVal)

structure ValidationResult where
  is_valid : Bool
  errors : List VMsg
  warnings : List VMsg
  stats : Stats
  deriving DecidableEq, Repr

namespace DataValidator

def REQUIRED_COLUMNS : List String := ["id", "title", "subreddit"]

def EXPECTED_COLUMNS : List String :=
  ["id", "subreddit", "title", "selftext", "score", "num_comments",
   "author", "created_utc", "upvote_ratio", "url", "permalink"]

/-- Constructor arguments of DataValidator. -/
structure Cfg where
  min_rows : Nat := 1
  max_null_percentage : ℚ := 50
  require_unique_ids : Bool := true
  deriving DecidableEq, Repr

def defaultCfg : Cfg := {}

/-- pandas is_string_dtype: true exactly for object dtype in this model. -/
def isStringDtype : Dtype → Bool
  | .object => true
  | _ => false

/-- pandas is_numeric_dtype: int, float and bool dtypes are numeric. -/
def isNumericDtype : Dtype → Bool
  | .int64 => true
  | .float64 => true
  | .boolDt => true
  | _ => false

def dtypeStr : Dtype → String
  | .object => "object"
  | .int64 => "int64"
  | .float64 => "float64"
  | .boolDt => "bool"
  | .datetime64 => "datetime64[ns]"
  | .category => "category"

/-- Null percentage of a column: `isnull().sum() / len(df) * 100`.  For the
degenerate 0-row-with-columns frame this yields 0 where pandas yields NaN;
both compare false against any positive ceiling, and every theorem touching
percentages assumes a non-empty frame. -/
def nullPct (vs : List Cell) (n : Nat) : ℚ :=
  qMul (qDiv ((vs.filter Cell.isNull).length : ℚ) (n : ℚ)) 100

def validateStructure (df : DataFrame) : List VMsg × List VMsg × Stats × DataFrame :=
  if isEmptyPd df then ([.dfEmpty], [], [], df)
  else
    let stats : Stats := [("total_rows", .natS df.nrows), ("total_columns", .natS df.cols.length)]
    let missing := REQUIRED_COLUMNS.filter (fun c => !hasCol df c)
    let errs1 : List VMsg := if missing.isEmpty then [] else [.missingRequired missing]
    let unexpected := (colNames df).filter (fun c => !EXPECTED_COLUMNS.contains c)
    let warns1 : List VMsg := if unexpected.isEmpty then [] else [.unexpectedCols unexpected]
    let warns2 : List VMsg :=
      if hasCol df "id" && !isStringDtype ((colDtype df "id").getD .object) then [.idNotString]
      else []
    let errs2 : List VMsg :=
      if hasCol df "score" && !isNumericDtype ((colDtype df "score").getD .object) then
        [.scoreNotNumeric]
      else []
    (errs1 ++ errs2, warns1 ++ warns2, stats, df)

def validateQuality (cfg : Cfg) (df : DataFrame) : List VMsg × List VMsg × Stats × DataFrame :=
  let errsA : List VMsg :=
    if df.nrows < cfg.min_rows then [.tooFewRows df.nrows cfg.min_rows] else []
  let idPart : List VMsg × List VMsg × Stats :=
    if hasCol df "id" then
      let dc := dupCount ((getCol df "id").map normKey)
      (if dc > 0 && cfg.require_unique_ids then [.dupIds dc] else [],
       if dc > 0 && !cfg.require_unique_ids then [.dupIds dc] else [],
       [("duplicate_ids", .natS dc)])
    else ([], [], [])
  let pcts : List (String × ℚ) := df.cols.map (fun c => (c.name, nullPct c.vals df.nrows))
  let errsC : List VMsg := pcts.filterMap (fun p =>
    if p.2 > cfg.max_null_percentage then some (.nullPctError p.1 p.2 cfg.max_null_percentage)
    else Option.none)
  let warnsC : List VMsg := pcts.filterMap (fun p =>
    if p.2 > cfg.max_null_percentage then Option.none
    else if p.2 > qDiv cfg.max_null_percentage 2 then some (.nullPctWarn p.1 p.2)
    else Option.none)
  let errsD : List VMsg :=
    if hasCol df "title" then
      let n := ((getCol df "title").filter (fun c => pyStrip c.pyStr = "")).length
      if n > 0 then [.emptyTitles n] else []
    else []
  (errsA ++ idPart.1 ++ errsC ++ errsD,
   idPart.2.1 ++ warnsC,
   idPart.2.2 ++ [("null_percentages", .pctDict pcts)],
   df)

/-- Element-wise numeric view of a cell during a series comparison such as
`df[col] < 0`.  On a numeric dtype NaN compares false; on an object dtype a
comparison against a number raises for None, strings and timestamps (Python
TypeError), and a whole-series comparison of a datetime64 or categorical
column against a number raises as well. -/
def cellAsNum : Dtype → Cell → Except Unit (Option ℚ)
  | .int64, c | .float64, c | .boolDt, c =>
    match c with
    | .num q => .ok (some q)
    | .bool b => .ok (some (if b then 1 else 0))
    | _ => .ok Option.none
  | .object, c =>
    match c with
    | .num q => .ok (some q)
    | .bool b => .ok (some (if b then 1 else 0))
    | .nan => .ok Option.none
    | _ => .error ()
  | .datetime64, _ => .error ()
  | .category, _ => .error ()

/-- Count of cells satisfying a numeric predicate: `(df[col] CMP k).sum()`. -/
def countNumPred (d : Dtype) (vs : List Cell) (p : ℚ → Bool) : Except Unit Nat := do
  let xs ← vs.mapM (cellAsNum d)
  pure (xs.filter (fun o => match o with | some x => p x | Option.none => false)).length

/-- value_counts of a column: non-null values with their multiplicities.  The
source only uses the dict length and stores it into stats, so the pandas
sort-by-descending-count ordering is abstracted to first-occurrence order. -/
def valueCounts (vs : List Cell) : List (Cell × Nat) :=
  let nn := vs.filter (fun c => !c.isNull)
  (keepFirst nn).map (fun k => (k, nn.count k))

def tsRender (t : ℤ) : String := "epoch:" ++ toString t

/-- min of a datetime column, skipping NaT; None if everything is NaT. -/
def tsMin (vs : List Cell) : Option ℤ :=
  vs.foldl (fun acc c =>
    match c, acc with
    | .ts t, Option.none => some t
    | .ts t, some m => some (min m t)
    | _, a => a) Option.none

def tsMax (vs : List Cell) : Option ℤ :=
  vs.foldl (fun acc c =>
    match c, acc with
    | .ts t, Option.none => some t
    | .ts t, some m => some (max m t)
    | _, a => a) Option.none

def tsOptRender : Option ℤ → String
  | some t => tsRender t
  | Option.none => "NaT"

/-- Score-range block of the business tier. -/
def scoreChecks (df : DataFrame) : Except Unit (List VMsg × Stats) :=
  if hasCol df "score" then do
    let neg ← countNumPred ((colDtype df "score").getD .object) (getCol df "score")
      (fun q => decide (q < 0))
    pure ((if (neg : ℚ) > qMul (df.nrows : ℚ) (Rat.divInt 1 10) then [VMsg.highNegScores neg] else []),
      ([("negative_scores", StatVal.natS neg)] : Stats))
  else pure ([], [])

/-- Comment-count block of the business tier. -/
def commentChecks (df : DataFrame) : Except Unit (List VMsg) :=
  if hasCol df "num_comments" then do
    let neg ← countNumPred ((colDtype df "num_comments").getD .object)
      (getCol df "num_comments") (fun q => decide (q < 0))
    pure (if neg > 0 then [VMsg.negComments neg] else [])
  else pure []

/-- Upvote-ratio block of the business tier. -/
def ratioChecks (df : DataFrame) : Except Unit (List VMsg) :=
  if hasCol df "upvote_ratio" then do
    let bad ← countNumPred ((colDtype df "upvote_ratio").getD .object)
      (getCol df "upvote_ratio") (fun q => decide (q < 0) || decide (q > 1))
    pure (if bad > 0 then [VMsg.invalidRatioCount bad] else [])
  else pure []

/-- Date-range block of the business tier, against the given wall clock. -/
def dateChecks (now : ℤ) (df : DataFrame) : List VMsg × Stats :=
  if hasCol df "created_utc" && ((colDtype df "created_utc").getD .object == .datetime64) then
    let vs := getCol df "created_utc"
    let fut := (vs.filter (fun c => match c with | .ts t => decide (t > now) | _ => false)).length
    ((if fut > 0 then [VMsg.futureDates fut] else []),
     ([("date_range", StatVal.rangeDict (tsOptRender (tsMin vs)) (tsOptRender (tsMax vs)))] : Stats))
  else ([], [])

/-- Subreddit-distribution block of the business tier. -/
def subredditChecks (df : DataFrame) : List VMsg × List VMsg × Stats :=
  if hasCol df "subreddit" then
    let vc := valueCounts (getCol df "subreddit")
    ((if vc.length == 0 then [VMsg.noSubreddits] else []),
     (if vc.length == 1 then [VMsg.singleSubreddit] else []),
     ([("subreddit_distribution", StatVal.distDict vc)] : Stats))
  else ([], [], [])

def validateBusinessRules (now : ℤ) (df : DataFrame) :
    Except Unit (List VMsg × List VMsg × Stats × DataFrame) := do
  let scorePart ← scoreChecks df
  let commentErrs ← commentChecks df
  let ratioErrs ← ratioChecks df
  let datePart := dateChecks now df
  let subrPart := subredditChecks df
  pure (commentErrs ++ ratioErrs ++ datePart.1 ++ subrPart.1,
    scorePart.1 ++ subrPart.2.1,
    scorePart.2 ++ datePart.2 ++ subrPart.2.2,
    df)

/-- DataValidator.validate, with the DataFrame threaded explicitly as state
(the Python method receives a mutable reference; the translation shows no
statement assigns into it).  The wall clock read by the business tier is an
explicit parameter.  An internal exception (DataValidationException) is the
error case. -/
def validate (cfg : Cfg) (now : ℤ) (df : DataFrame) :
    Except Unit (ValidationResult × DataFrame) := do
  let (e1, w1, s1, df1) := validateStructure df
  let (e2, w2, s2, df2) := validateQuality cfg df1
  let (e3, w3, s3, df3) ← validateBusinessRules now df2
  let errors := e1 ++ e2 ++ e3
  let warnings := w1 ++ w2 ++ w3
  pure ({ is_valid := errors.isEmpty, errors := errors, warnings := warnings,
          stats := s1 ++ s2 ++ s3 }, df3)

/-- Substring test, standing for the Python `in` operator on strings. -/
def substrB (needle hay : String) : Bool :=
  (List.range (hay.data.length + 1)).any (fun i => needle.data.isPrefixOf (hay.data.drop i))

def validateSchema (df : DataFrame) (schema : List (String × String)) : ValidationResult :=
  let ew := schema.foldl (fun (acc : List VMsg × List VMsg) p =>
    if !hasCol df p.1 then (acc.1 ++ [.missingColumn p.1], acc.2)
    else
      let actual := dtypeStr ((colDtype df p.1).getD .object)
      if !substrB p.2 actual then (acc.1, acc.2 ++ [.typeMismatch p.1 actual p.2])
      else acc) ([], [])
  { is_valid := ew.1.isEmpty, errors := ew.1, warnings := ew.2, stats := [] }

end DataValidator

namespace DataTransformer

def string_columns : List String :=
  ["id", "subreddit", "title", "selftext", "author", "url", "permalink"]

def numeric_columns : List String := ["score", "num_comments", "upvote_ratio"]

def boolean_columns : List String := ["is_self", "over_18", "stickied", "distinguished"]

/-- One string-column assignment `df[col].astype(str).replace(nan-string, NaN)`:
every cell is stringified (None becomes the literal "None"), then the literal
"nan" is put back to NaN.  The pandas possibility of silently downcasting an
all-NaN object column in `replace` is not modelled: the column keeps object
dtype, which is the modern (non-downcasting) pandas behaviour. -/
def astypeStrReplace (c : Cell) : Cell :=
  let s := c.pyStr
  if s = "nan" then .nan else .str s

/-- `pd.to_numeric(errors=coerce)` on one cell: unparsable values coerce to
NaN.  Only integer literals are parsed from strings (decimal-string parsing is
abstracted; the extractor never produces numeric strings for these columns),
and the numeric view of a datetime cell is abstracted to its epoch count. -/
def toNumericCell : Cell → Cell
  | .num q => .num q
  | .bool b => .num (if b then 1 else 0)
  | .str s => match parseIntStr s with
    | some n => .num n
    | Option.none => .nan
  | .ts t => .num t
  | _ => .nan

/-- Result dtype of a numeric conversion or derivation: int64 when every cell
is an integer, float64 as soon as a NaN or fractional value appears. -/
def numericDtypeOf (vs : List Cell) : Dtype :=
  if vs.all (fun c => match c with | .num q => q.den == 1 | _ => false) then .int64 else .float64

/-- `pd.to_datetime(unit=s, errors=coerce)` on one cell. -/
def toDatetimeCell : Cell → Cell
  | .num q => .ts ⌊q⌋
  | .ts t => .ts t
  | _ => .nan

/-- 1970-01-01 was a Thursday. -/
def dayName (t : ℤ) : String :=
  ["Thursday", "Friday", "Saturday", "Sunday", "Monday", "Tuesday", "Wednesday"].getD
    ((t.fdiv 86400).emod 7).toNat ""

def dateCell : Cell → Cell
  | .ts t => .num (t.fdiv 86400)
  | _ => .nan

def hourCell : Cell → Cell
  | .ts t => .num ((t.emod 86400).fdiv 3600)
  | _ => .nan

def dowCell : Cell → Cell
  | .ts t => .str (dayName t)
  | _ => .nan

/-- One iteration of a type-conversion loop body: convert the column if it is
present, else skip. -/
def applyColMap (df : DataFrame) (c : String) (f : Cell → Cell) (d : List Cell → Dtype) :
    DataFrame :=
  if hasCol df c then
    let vs := (getCol df c).map f
    setCol df c vs (d vs)
  else df

/-- A `for col in cols: if col in df.columns: df[col] = convert(df[col])`
loop. -/
def phaseFold (f : Cell → Cell) (dt : List Cell → Dtype) (df : DataFrame) (L : List String) :
    DataFrame :=
  L.foldl (fun d c => applyColMap d c f dt) df

def stringPhase (df : DataFrame) : DataFrame :=
  phaseFold astypeStrReplace (fun _ => .object) df string_columns

def numericPhase (df : DataFrame) : DataFrame :=
  phaseFold toNumericCell numericDtypeOf df numeric_columns

/-- `astype(bool)` applies Python truthiness element-wise; note that None
coerces to False while float NaN coerces to True. -/
def booleanPhase (df : DataFrame) : DataFrame :=
  phaseFold (fun v => .bool v.truthy) (fun _ => .boolDt) df boolean_columns

/-- The `created_utc` block of `_convert_types`: datetime conversion plus the
three derived columns (date kept as days-since-epoch, weekday as its name). -/
def datetimePhase (df : DataFrame) : DataFrame :=
  if hasCol df "created_utc" then
    let d1 := setCol df "created_utc" ((getCol df "created_utc").map toDatetimeCell) .datetime64
    let dateVals := (getCol d1 "created_utc").map dateCell
    let d2 := setCol d1 "created_date" dateVals .object
    let hourVals := (getCol d2 "created_utc").map hourCell
    let d3 := setCol d2 "created_hour" hourVals (numericDtypeOf hourVals)
    let dowVals := (getCol d3 "created_utc").map dowCell
    setCol d3 "created_day_of_week" dowVals .object
  else df

def convertTypes (df : DataFrame) : DataFrame :=
  datetimePhase (booleanPhase (numericPhase (stringPhase df)))

def notnaMask (df : DataFrame) (f : String) : List Bool :=
  (getCol df f).map (fun c => !c.isNull)

/-- `df = df[df[field].notna()]` guarded on column presence. -/
def dropMissing (df : DataFrame) (f : String) : DataFrame :=
  if hasCol df f then applyMask df (notnaMask df f) else df

/-- The `.str.strip()` element map: non-string cells yield NaN. -/
def strAccStrip : Cell → Cell
  | .str s => .str (pyStrip s)
  | _ => .nan

/-- The two text-cleaning statements for one field.  The `.str` accessor
raises (AttributeError) when the column dtype is not object. -/
def stripTextCol (df : DataFrame) (f : String) : Except Unit DataFrame :=
  if hasCol df f then
    if (colDtype df f).getD .object = .object then
      let d1 := setCol df f ((getCol df f).map strAccStrip) .object
      .ok (setCol d1 f ((getCol d1 f).map (fun c => if c = .str "" then .nan else c)) .object)
    else .error ()
  else .ok df

def authorPhase (df : DataFrame) : DataFrame :=
  if hasCol df "author" then
    setCol df "author" ((getCol df "author").map (fun c =>
        if c = .str "[deleted]" || c = .str "[removed]" || c = .str "nan" then .nan else c))
      ((colDtype df "author").getD .object)
  else df

def cleanData (df : DataFrame) : Except Unit DataFrame := do
  let d1 := dropMissing (dropMissing df "id") "title"
  let d2 ← stripTextCol d1 "title"
  let d3 ← stripTextCol d2 "selftext"
  .ok (authorPhase d3)

def strLenCell : Cell → Cell
  | .str s => .num s.length
  | _ => .nan

def countWords (s : String) : Nat := pyWordCount s

def wordCountCell : Cell → Cell
  | .str s => .num (countWords s)
  | _ => .nan

/-- Arithmetic view of a cell inside `df[a] + df[b] * 2`: NaN propagates, a
non-numeric object cell raises (Python TypeError). -/
def asArith : Cell → Except Unit (Option ℚ)
  | .num q => .ok (some q)
  | .bool b => .ok (some (if b then 1 else 0))
  | .nan => .ok Option.none
  | _ => .error ()

def engageCell (p : Cell × Cell) : Except Unit Cell := do
  let a ← asArith p.1
  let b ← asArith p.2
  match a, b with
  | some x, some y => pure (.num (qAdd x (qMul y 2)))
  | _, _ => pure .nan

/-- `pd.cut` with bins (-inf,0], (0,10], (10,100], (100,1000], (1000,inf):
left-open right-closed; NaN stays NaN; a non-numeric cell raises. -/
def cutCell : Cell → Except Unit Cell
  | .num q => .ok (.str (if q ≤ 0 then "Negative" else if q ≤ 10 then "Low"
      else if q ≤ 100 then "Medium" else if q ≤ 1000 then "High" else "Viral"))
  | .bool b => .ok (.str (if b then "Low" else "Negative"))
  | .nan => .ok .nan
  | _ => .error ()

/-- The two text-length feature assignments for one text field; the `.str`
accessor raises when the column dtype is not object. -/
def textFeatures (df : DataFrame) (f lenName wcName : String) : Except Unit DataFrame :=
  if hasCol df f then
    if (colDtype df f).getD .object = .object then
      let lenVals := (getCol df f).map strLenCell
      let dfa := setCol df lenName lenVals (numericDtypeOf lenVals)
      let wcVals := (getCol dfa f).map wordCountCell
      .ok (setCol dfa wcName wcVals (numericDtypeOf wcVals))
    else .error ()
  else .ok df

/-- The engagement-score assignment `df[score] + df[num_comments] * 2`,
guarded on both columns being present. -/
def engagementStage (df : DataFrame) : Except Unit DataFrame :=
  if hasCol df "score" && hasCol df "num_comments" then do
    let vals ← ((getCol df "score").zip (getCol df "num_comments")).mapM engageCell
    .ok (setCol df "engagement_score" vals (numericDtypeOf vals))
  else .ok df

/-- The popularity-category assignment via `pd.cut`, guarded on the score
column being present. -/
def cutStage (df : DataFrame) : Except Unit DataFrame :=
  if hasCol df "score" then do
    let vals ← (getCol df "score").mapM cutCell
    .ok (setCol df "popularity_category" vals .category)
  else .ok df

def engineerFeatures (df : DataFrame) : Except Unit DataFrame := do
  let d1 ← textFeatures df "title" "title_length" "title_word_count"
  let d2 ← textFeatures d1 "selftext" "selftext_length" "selftext_word_count"
  let d3 ← engagementStage d2
  cutStage d3

/-- `drop_duplicates(subset=[id], keep=first)` guarded on column presence. -/
def removeDuplicates (df : DataFrame) : DataFrame :=
  if hasCol df "id" then applyMask df (keepMask [] ((getCol df "id").map normKey)) else df

/-- DataTransformer.transform_reddit_posts.  The error case is the
ProcessingException wrapper the method re-raises when a stage throws. -/
def transformRedditPosts (df : DataFrame) : Except Unit DataFrame :=
  if isEmptyPd df then .ok df
  else do
    let d1 := convertTypes df
    let d2 ← cleanData d1
    let d3 ← engineerFeatures d2
    .ok (removeDuplicates d3)

end DataTransformer

namespace RedditExtractor

def POST_FIELDS : List String :=
  ["id", "subreddit", "title", "selftext", "score", "num_comments", "author",
   "created_utc", "upvote_ratio", "url", "permalink", "is_self", "over_18",
   "stickied", "distinguished"]

/-- Outcome of one attribute access on an external item: a value, a missing
attribute (getattr default applies), or an access that raises. -/
inductive FieldOutcome where
  | val (c : Cell)
  | absent
  | raising
  deriving DecidableEq, Repr

/-- An external item, opaque beyond its per-field access outcomes. -/
abbrev Item := List (String × FieldOutcome)

abbrev RawRecord := List (String × Cell)

/-- `getattr(post, f, None)`: a missing attribute yields None, a raising
attribute propagates (to be caught by the per-field handler). -/
def rawGet (item : Item) (f : String) : Except Unit Cell :=
  match List.lookup f item with
  | some (.val c) => .ok c
  | some .raising => .error ()
  | some .absent => .ok Cell.none
  | Option.none => .ok Cell.none

/-- Python `int()`: truncates floats toward zero, parses integer strings,
raises otherwise. -/
def pyInt : Cell → Except Unit ℤ
  | .num q => .ok (q.num.tdiv q.den)
  | .bool b => .ok (if b then 1 else 0)
  | .str s => (match parseIntStr s with | some n => .ok n | Option.none => .error ())
  | _ => .error ()

/-- The special-case normalizations of `_extract_post_fields`: a truthy author
collapses to its string form; created_utc coerces to an integer epoch when
truthy and to None otherwise. -/
def normField (f : String) (v : Cell) : Except Unit Cell :=
  if f = "author" then (if v.truthy then .ok (.str v.pyStr) else .ok v)
  else if f = "created_utc" then
    (if v.truthy then (pyInt v).map (fun n => Cell.num (n : ℚ)) else .ok Cell.none)
  else .ok v

/-- One loop iteration of `_extract_post_fields`: any failure in retrieval or
normalization is absorbed and the field is set to None. -/
def extractField (item : Item) (f : String) : Cell :=
  match (rawGet item f).bind (normField f) with
  | .ok c => c
  | .error _ => Cell.none

def extractPostFields (item : Item) : RawRecord :=
  POST_FIELDS.map (fun f => (f, extractField item f))

/-- Error taxonomy of the extraction path: ValueError, PrawcoreException,
RedditAPIException, or any other exception, each carrying str(e). -/
inductive PyErr where
  | valueError (msg : String)
  | prawcoreErr (msg : String)
  | redditAPI (msg : String)
  | generic (msg : String)
  deriving DecidableEq, Repr

def validSorts : List String := ["top", "hot", "new", "rising"]

/-- RedditExtractor.extract_posts, parameterized by the retrieval strategies
(`fetch sort` is the outcome of iterating the chosen listing; time filter and
limit are folded into it).  The body reproduces the try/except structure: the
invalid-sort ValueError is raised inside the try block and therefore caught
and re-wrapped by the generic handler into a RedditAPIException. -/
def extractPosts (fetch : String → Except PyErr (List Item)) (sort : String) :
    Except PyErr (List RawRecord) :=
  let body : Except PyErr (List RawRecord) :=
    if validSorts.contains sort then
      match fetch sort with
      | .error e => .error e
      | .ok items => .ok (items.map extractPostFields)
    else .error (.valueError ("Invalid sort method: " ++ sort))
  match body with
  | .ok r => .ok r
  | .error (.prawcoreErr m) => .error (.redditAPI ("Reddit API error: " ++ m))
  | .error (.valueError m) => .error (.redditAPI ("Post extraction failed: " ++ m))
  | .error (.generic m) => .error (.redditAPI ("Post extraction failed: " ++ m))
  | .error (.redditAPI m) => .error (.redditAPI ("Post extraction failed: " ++ m))

def isNumCell : Cell → Bool
  | .num _ => true
  | _ => false

def isIntCell : Cell → Bool
  | .num q => q.den == 1
  | _ => false

def isTsCell : Cell → Bool
  | .ts _ => true
  | _ => false

/-- pandas dtype inference when a DataFrame is built from a list of dicts:
all-bool gives bool, all-int gives int64, numeric-with-nulls gives float64
(None coerced to NaN), all-None stays object, otherwise object. -/
def inferDtype (vs : List Cell) : Dtype :=
  if vs.isEmpty then .object
  else if vs.all (fun c => match c with | .bool _ => true | _ => false) then .boolDt
  else if vs.all isIntCell then .int64
  else if vs.all (fun c => isNumCell c || c.isNull) && vs.any (fun c => isNumCell c || c == .nan)
    then .float64
  else if vs.all (fun c => isTsCell c || c.isNull) && vs.any isTsCell then .datetime64
  else .object

/-- `pd.DataFrame(list-of-dicts)`: columns are the union of keys in first-seen
order, a missing key fills with NaN, and None cells of numeric or datetime
columns are coerced to NaN (they survive as None only in object columns). -/
def dfOfRecords (recs : List RawRecord) : DataFrame :=
  let keys := keepFirst (recs.map (fun r => r.map Prod.fst)).flatten
  { nrows := recs.length,
    cols := keys.map (fun k =>
      let vs := recs.map (fun r => (List.lookup k r).getD Cell.nan)
      let d := inferDtype vs
      let vs' := if d == .int64 || d == .float64 || d == .datetime64 then
          vs.map (fun c => if c == Cell.none then Cell.nan else c)
        else vs
      ⟨k, d, vs'⟩) }

/-- RedditExtractor.extract_posts_batch, parameterized by the per-subreddit
outcomes of extract_posts: a failing partition is logged and skipped, and an
empty aggregate yields an empty DataFrame instead of an error. -/
def extractPostsBatch (results : List (Except PyErr (List RawRecord))) : DataFrame :=
  let allPosts := results.foldl (fun acc r =>
    match r with
    | .ok ps => acc ++ ps
    | .error _ => acc) []
  if allPosts.isEmpty then emptyDataFrame else dfOfRecords allPosts

end RedditExtractor

namespace RedditPipeline

deriving instance DecidableEq for Except

/-- Outcome of one pipeline run: the RedditPipelineException message or the
output location, together with whether the sink (`_save_dataframe`) was ever
invoked.  The sink itself is abstracted to the location it returns. -/
structure RunResult where
  outcome : Except String String
  sinkCalled : Bool
  deriving DecidableEq, Repr

/-- RedditPipeline.run, parameterized by the per-subreddit extraction
outcomes and the wall clock read by the validator.  Every stage-level
exception is caught by the outer handler and re-wrapped with the
"Pipeline execution failed: " diagnosis (inner exception messages beyond the
empty-extraction one are abstracted to their fixed prefixes). -/
def pipelineRun (cfg : DataValidator.Cfg) (now : ℤ)
    (results : List (Except RedditExtractor.PyErr (List RedditExtractor.RawRecord)))
    (doTransform doValidate : Bool) (outputPath : String) : RunResult :=
  let df := RedditExtractor.extractPostsBatch results
  if isEmptyPd df then
    ⟨.error ("Pipeline execution failed: " ++ "No data extracted from Reddit"), false⟩
  else
    match (if doTransform then DataTransformer.transformRedditPosts df else .ok df) with
    | .error _ => ⟨.error ("Pipeline execution failed: " ++ "Data transformation failed"), false⟩
    | .ok df2 =>
      if doValidate then
        match DataValidator.validate cfg now df2 with
        | .error _ => ⟨.error ("Pipeline execution failed: " ++ "Validation failed"), false⟩
        | .ok (r, _) =>
          if !r.is_valid && !r.errors.isEmpty then
            ⟨.error ("Pipeline execution failed: " ++ "Data validation failed: "
              ++ String.intercalate ", " (r.errors.map VMsg.render)), false⟩
          else ⟨.ok outputPath, true⟩
      else ⟨.ok outputPath, true⟩

end RedditPipeline

/-- A message mentions a phrase when the phrase occurs inside it. -/
def Mentions (sub msg : String) : Prop := sub.data <:+: msg.data

instance (a b : String) : Decidable (Mentions a b) := by
  unfold Mentions; infer_instance

/-- Kind test used to settle whether an extraction outcome is an
invalid-argument (ValueError) failure. -/
def isInvalidArg : Except RedditExtractor.PyErr (List RedditExtractor.RawRecord) → Bool
  | .error (.valueError _) => true
  | _ => false

/-- A batch of raw records is reachable from extraction when every record is
the field extraction of some item. -/
def FromExtractor (recs : List RedditExtractor.RawRecord) : Prop :=
  ∀ r ∈ recs, ∃ item, r = RedditExtractor.extractPostFields item

/-- A sample well-formed external item with the given id; selftext and
distinguished are missing attributes (getattr default applies). -/
def sampleItem (i : String) : RedditExtractor.Item :=
  [("id", .val (.str i)), ("subreddit", .val (.str "test")),
   ("title", .val (.str "Hello world")), ("selftext", .absent),
   ("score", .val (.num 10)), ("num_comments", .val (.num 5)),
   ("author", .val (.str "user")), ("created_utc", .val (.num 1609459200)),
   ("upvote_ratio", .val (.num (Rat.divInt 1 2))), ("url", .val (.str "u")),
   ("permalink", .val (.str "p")), ("is_self", .val (.bool true)),
   ("over_18", .val (.bool false)), ("stickied", .val (.bool false)),
   ("distinguished", .absent)]

/-- Three extraction-reachable rows with one repeated id. -/
def dfScenario : DataFrame :=
  RedditExtractor.dfOfRecords
    [RedditExtractor.extractPostFields (sampleItem "a"),
     RedditExtractor.extractPostFields (sampleItem "b"),
     RedditExtractor.extractPostFields (sampleItem "a")]

/-- One-row frame whose datetime column lies between two clock readings. -/
def dfFutureClock : DataFrame := ⟨1, [⟨"created_utc", .datetime64, [.ts 100]⟩]⟩

/-- One-row extraction-reachable frame whose boolean column holds a Python
None. -/
def dfNullBool : DataFrame := RedditExtractor.dfOfRecords [[("is_self", Cell.none)]]

/-- Non-empty frame lacking a title column. -/
def dfNoTitle : DataFrame := ⟨2, [⟨"x", .int64, [.num 1, .num 2]⟩]⟩

/-- An item whose title attribute raises on access. -/
def itemRaise : RedditExtractor.Item := [("title", .raising)]

section DataFrameLemmas

theorem qAdd_eq (a b : ℚ) : qAdd a b = a + b := by
  rw [qAdd]
  conv_rhs => rw [← Rat.num_divInt_den a, ← Rat.num_divInt_den b]
  rw [Rat.divInt_add_divInt _ _ (Int.natCast_ne_zero.mpr a.den_nz)
    (Int.natCast_ne_zero.mpr b.den_nz)]

theorem qMul_eq (a b : ℚ) : qMul a b = a * b := by
  rw [qMul]
  conv_rhs => rw [← Rat.num_divInt_den a, ← Rat.num_divInt_den b, Rat.divInt_mul_divInt']

theorem qDiv_eq (a b : ℚ) : qDiv a b = a / b := by
  rw [qDiv, Rat.div_def']

theorem keepFirst_filter [DecidableEq α] (p : α → Bool) :
    ∀ xs : List α, keepFirst (xs.filter p) = (keepFirst xs).filter p := by
  intro xs
  induction xs with
  | nil => rfl
  | cons x xs ih =>
    by_cases hp : p x = true
    · rw [List.filter_cons_of_pos hp]
      show x :: (keepFirst (xs.filter p)).filter (fun y => y ≠ x)
        = (keepFirst (x :: xs)).filter p
      show _ = (x :: (keepFirst xs).filter (fun y => y ≠ x)).filter p
      rw [List.filter_cons_of_pos hp, ih, List.filter_filter, List.filter_filter]
      congr 1
      apply List.filter_congr
      intro y _
      rw [Bool.and_comm]
    · have hp' : p x = false := by simpa using hp
      rw [List.filter_cons_of_neg (by simp [hp'])]
      show keepFirst (xs.filter p) = (x :: (keepFirst xs).filter (fun y => y ≠ x)).filter p
      rw [List.filter_cons_of_neg (by simp [hp']), ih, List.filter_filter]
      apply List.filter_congr
      intro y _
      by_cases hy : y = x
      · subst hy
        simp [hp']
      · simp [hy]

theorem keepFirst_cons [DecidableEq α] (x : α) (xs : List α) :
    keepFirst (x :: xs) = x :: keepFirst (xs.filter (fun y => y ≠ x)) := by
  show x :: (keepFirst xs).filter (fun y => y ≠ x) = _
  rw [keepFirst_filter]

theorem maskFilter_sublist (m : List Bool) (xs : List α) : (maskFilter m xs).Sublist xs := by
  induction m generalizing xs with
  | nil => cases xs <;> simp [maskFilter]
  | cons b bs ih =>
    cases xs with
    | nil => simp [maskFilter]
    | cons x xs =>
      by_cases hb : b = true
      · simpa [maskFilter, hb] using List.Sublist.cons₂ x (ih xs)
      · simp only [Bool.not_eq_true] at hb
        simpa [maskFilter, hb] using List.Sublist.cons x (ih xs)

theorem maskFilter_true (xs : List α) (n : Nat) (h : xs.length ≤ n) :
    maskFilter (List.replicate n true) xs = xs := by
  induction xs generalizing n with
  | nil => cases n <;> simp [maskFilter]
  | cons x xs ih =>
    cases n with
    | zero => simp at h
    | succ n =>
      simp only [List.length_cons, Nat.succ_le_succ_iff] at h
      simp [List.replicate_succ, maskFilter, ih n h]

theorem maskFilter_map (m : List Bool) (f : α → β) (xs : List α) :
    maskFilter m (xs.map f) = (maskFilter m xs).map f := by
  induction m generalizing xs with
  | nil => cases xs <;> simp [maskFilter]
  | cons b bs ih =>
    cases xs with
    | nil => simp [maskFilter]
    | cons x xs => by_cases hb : b = true <;> simp [maskFilter, hb, ih]

theorem maskFilter_length (m : List Bool) (xs : List α) (h : xs.length = m.length) :
    (maskFilter m xs).length = (m.filter id).length := by
  induction m generalizing xs with
  | nil => cases xs <;> simp_all [maskFilter]
  | cons b bs ih =>
    cases xs with
    | nil => simp at h
    | cons x xs =>
      simp only [List.length_cons, Nat.succ.injEq] at h
      by_cases hb : b = true <;> simp [maskFilter, hb, List.filter, ih xs h]

theorem keepMask_maskFilter [DecidableEq α] (ks : List α) (seen : List α) :
    maskFilter (keepMask seen ks) ks = keepFirst (ks.filter (fun k => k ∉ seen)) := by
  induction ks generalizing seen with
  | nil => simp [keepMask, maskFilter, keepFirst]
  | cons k ks ih =>
    by_cases hk : k ∈ seen
    · have h1 : keepMask seen (k :: ks) = false :: keepMask seen ks := by
        simp [keepMask, hk]
      have h2 : List.filter (fun x => decide (x ∉ seen)) (k :: ks)
          = List.filter (fun x => decide (x ∉ seen)) ks := by simp [hk]
      rw [h1, h2]
      simpa [maskFilter] using ih seen
    · have h1 : keepMask seen (k :: ks) = true :: keepMask (k :: seen) ks := by
        simp [keepMask, hk]
      have h2 : List.filter (fun x => decide (x ∉ seen)) (k :: ks)
          = k :: List.filter (fun x => decide (x ∉ seen)) ks := by simp [hk]
      have h3 : List.filter (fun x => decide (x ∉ k :: seen)) ks
          = List.filter (fun y => decide (y ≠ k)) (List.filter (fun x => decide (x ∉ seen)) ks) := by
        rw [List.filter_filter]
        apply List.filter_congr
        intro x _
        by_cases hx : x = k <;> by_cases hs : x ∈ seen <;> simp [hx, hs]
      rw [h1, h2, keepFirst_cons]
      simp only [maskFilter, if_true]
      rw [ih (k :: seen), h3]

/-- The mask computed by a second deduplication pass over already-deduplicated
keys is all-true. -/
theorem keepMask_of_dedup [DecidableEq α] (ks : List α) (seen : List α) :
    keepMask seen (maskFilter (keepMask seen ks) ks) =
      List.replicate (maskFilter (keepMask seen ks) ks).length true := by
  induction ks generalizing seen with
  | nil => simp [keepMask, maskFilter]
  | cons k ks ih =>
    by_cases hk : k ∈ seen
    · simp only [keepMask, hk, if_true, maskFilter]
      exact ih seen
    · simp only [keepMask, hk, if_false, maskFilter, if_true]
      simp only [keepMask, hk, if_false, List.length_cons, List.replicate_succ]
      congr 1
      exact ih (k :: seen)

end DataFrameLemmas

section OpLemmas

theorem find?_map_nameKeep (cols : List Col) (g : Col → Col)
    (hg : ∀ col, (g col).name = col.name) (c : String) :
    (cols.map g).find? (fun col => col.name = c) =
      (cols.find? (fun col => col.name = c)).map g := by
  induction cols with
  | nil => rfl
  | cons a as ih =>
    by_cases h : a.name = c
    · rw [List.map_cons, List.find?_cons_of_pos _ (by simp [hg, h]),
        List.find?_cons_of_pos _ (by simp [h])]
      rfl
    · rw [List.map_cons, List.find?_cons_of_neg _ (by simp [hg, h]),
        List.find?_cons_of_neg _ (by simp [h]), ih]

theorem hasCol_iff_exists (df : DataFrame) (c : String) :
    hasCol df c = true ↔ ∃ col ∈ df.cols, col.name = c := by
  simp [hasCol, colNames, List.mem_map]

theorem findCol_name (df : DataFrame) (c : String) (col : Col)
    (h : findCol df c = some col) : col.name = c := by
  have := List.find?_some h
  simpa using this

theorem findCol_isSome_of_hasCol (df : DataFrame) (c : String) (h : hasCol df c = true) :
    ∃ col, findCol df c = some col := by
  rw [hasCol_iff_exists] at h
  obtain ⟨col, hm, he⟩ := h
  have : (df.cols.find? (fun col => col.name = c)).isSome = true := by
    rw [List.find?_isSome]
    exact ⟨col, hm, by simp [he]⟩
  obtain ⟨x, hx⟩ := Option.isSome_iff_exists.mp this
  exact ⟨x, hx⟩

theorem findCol_eq_none_of_not_hasCol (df : DataFrame) (c : String)
    (h : hasCol df c = false) : findCol df c = Option.none := by
  rw [findCol, List.find?_eq_none]
  intro col hm
  simp only [decide_eq_true_eq]
  intro he
  rw [← Bool.not_eq_true, hasCol_iff_exists] at h
  exact h ⟨col, hm, he⟩

theorem setColFun_nameKeep (c : String) (vs : List Cell) (d : Dtype) :
    ∀ col : Col, ((fun col : Col => if col.name = c then (⟨c, d, vs⟩ : Col) else col) col).name
      = col.name := by
  intro col
  by_cases h : col.name = c <;> simp [h]

theorem colNames_setCol_of_has (df : DataFrame) (c : String) (vs : List Cell) (d : Dtype)
    (h : hasCol df c = true) : colNames (setCol df c vs d) = colNames df := by
  simp only [setCol, h, if_true, colNames, List.map_map]
  apply List.map_congr_left
  intro col _
  exact setColFun_nameKeep c vs d col

theorem colNames_setCol_of_not_has (df : DataFrame) (c : String) (vs : List Cell) (d : Dtype)
    (h : hasCol df c = false) : colNames (setCol df c vs d) = colNames df ++ [c] := by
  simp [setCol, h, colNames]

theorem nrows_setCol (df : DataFrame) (c : String) (vs : List Cell) (d : Dtype) :
    (setCol df c vs d).nrows = df.nrows := by
  simp only [setCol]
  split <;> rfl

theorem findCol_setCol_self (df : DataFrame) (c : String) (vs : List Cell) (d : Dtype) :
    findCol (setCol df c vs d) c = some ⟨c, d, vs⟩ := by
  by_cases h : hasCol df c = true
  · simp only [setCol, h, if_true, findCol]
    rw [find?_map_nameKeep _ _ (setColFun_nameKeep c vs d)]
    obtain ⟨col, hcol⟩ := findCol_isSome_of_hasCol df c h
    have hn := findCol_name df c col hcol
    simp only [findCol] at hcol
    rw [hcol]
    simp [Option.map, hn]
  · have h' : hasCol df c = false := by simpa using h
    simp only [setCol, h', if_false, Bool.false_eq_true, findCol]
    rw [List.find?_append]
    have hnone : findCol df c = Option.none := findCol_eq_none_of_not_hasCol df c h'
    simp only [findCol] at hnone
    rw [hnone]
    simp [List.find?]

theorem findCol_setCol_ne (df : DataFrame) (c c' : String) (vs : List Cell) (d : Dtype)
    (h : c' ≠ c) : findCol (setCol df c vs d) c' = findCol df c' := by
  by_cases hc : hasCol df c = true
  · simp only [setCol, hc, if_true, findCol]
    rw [find?_map_nameKeep _ _ (setColFun_nameKeep c vs d)]
    cases hfc : df.cols.find? (fun col => col.name = c') with
    | none => rfl
    | some col =>
      have hn : col.name = c' := findCol_name df c' col (by simpa [findCol] using hfc)
      simp [Option.map, hn, h]
  · have h' : hasCol df c = false := by simpa using hc
    simp only [setCol, h', if_false, Bool.false_eq_true, findCol]
    rw [List.find?_append]
    cases hfc : df.cols.find? (fun col => col.name = c') with
    | none => simp [List.find?, h.symm]
    | some col => rfl

theorem getCol_setCol_self (df : DataFrame) (c : String) (vs : List Cell) (d : Dtype) :
    getCol (setCol df c vs d) c = vs := by
  simp [getCol, findCol_setCol_self]

theorem colDtype_setCol_self (df : DataFrame) (c : String) (vs : List Cell) (d : Dtype) :
    colDtype (setCol df c vs d) c = some d := by
  simp [colDtype, findCol_setCol_self]

theorem getCol_setCol_ne (df : DataFrame) (c c' : String) (vs : List Cell) (d : Dtype)
    (h : c' ≠ c) : getCol (setCol df c vs d) c' = getCol df c' := by
  simp [getCol, findCol_setCol_ne df c c' vs d h]

theorem colDtype_setCol_ne (df : DataFrame) (c c' : String) (vs : List Cell) (d : Dtype)
    (h : c' ≠ c) : colDtype (setCol df c vs d) c' = colDtype df c' := by
  simp [colDtype, findCol_setCol_ne df c c' vs d h]

theorem hasCol_setCol (df : DataFrame) (c c' : String) (vs : List Cell) (d : Dtype) :
    hasCol (setCol df c vs d) c' = (hasCol df c' || (c' == c)) := by
  by_cases hc : hasCol df c = true
  · rw [hasCol, colNames_setCol_of_has df c vs d hc]
    by_cases he : c' = c
    · subst he
      rw [beq_self_eq_true, Bool.or_true]
      simpa [hasCol] using hc
    · simp [hasCol, he]
  · have h' : hasCol df c = false := by simpa using hc
    rw [hasCol, colNames_setCol_of_not_has df c vs d h']
    by_cases he : c' = c <;> simp [hasCol, he]

theorem colNames_applyMask (df : DataFrame) (m : List Bool) :
    colNames (applyMask df m) = colNames df := by
  simp [applyMask, colNames, List.map_map]

theorem hasCol_applyMask (df : DataFrame) (m : List Bool) (c : String) :
    hasCol (applyMask df m) c = hasCol df c := by
  simp [hasCol, colNames_applyMask]

theorem maskFilter_nil (m : List Bool) : maskFilter m ([] : List α) = [] := by
  cases m <;> rfl

theorem findCol_applyMask (df : DataFrame) (m : List Bool) (c : String) :
    findCol (applyMask df m) c =
      (findCol df c).map (fun col => ⟨col.name, col.dtype, maskFilter m col.vals⟩) := by
  simp only [applyMask, findCol]
  exact find?_map_nameKeep df.cols
    (fun col => ⟨col.name, col.dtype, maskFilter m col.vals⟩) (fun _ => rfl) c

theorem getCol_applyMask (df : DataFrame) (m : List Bool) (c : String) :
    getCol (applyMask df m) c = maskFilter m (getCol df c) := by
  cases hfc : findCol df c with
  | none => simp [getCol, findCol_applyMask, hfc, Option.map, maskFilter_nil]
  | some col => simp [getCol, findCol_applyMask, hfc, Option.map]

theorem colDtype_applyMask (df : DataFrame) (m : List Bool) (c : String) :
    colDtype (applyMask df m) c = colDtype df c := by
  cases hfc : findCol df c with
  | none => simp [colDtype, findCol_applyMask, hfc, Option.map]
  | some col => simp [colDtype, findCol_applyMask, hfc, Option.map]

end OpLemmas

section TransformLemmas

open DataTransformer

theorem colNames_applyColMap (df : DataFrame) (c : String) (f : Cell → Cell)
    (dt : List Cell → Dtype) : colNames (applyColMap df c f dt) = colNames df := by
  unfold applyColMap
  by_cases h : hasCol df c = true
  · simp only [h, if_true]
    exact colNames_setCol_of_has df c _ _ h
  · simp [h]

theorem hasCol_applyColMap (df : DataFrame) (c : String) (f : Cell → Cell)
    (dt : List Cell → Dtype) (c' : String) :
    hasCol (applyColMap df c f dt) c' = hasCol df c' := by
  simp [hasCol, colNames_applyColMap]

theorem nrows_applyColMap (df : DataFrame) (c : String) (f : Cell → Cell)
    (dt : List Cell → Dtype) : (applyColMap df c f dt).nrows = df.nrows := by
  unfold applyColMap
  by_cases h : hasCol df c = true
  · simp only [h, if_true]
    exact nrows_setCol df c _ _
  · simp [h]

theorem getCol_applyColMap_self (df : DataFrame) (c : String) (f : Cell → Cell)
    (dt : List Cell → Dtype) (h : hasCol df c = true) :
    getCol (applyColMap df c f dt) c = (getCol df c).map f := by
  simp [applyColMap, h, getCol_setCol_self]

theorem colDtype_applyColMap_self (df : DataFrame) (c : String) (f : Cell → Cell)
    (dt : List Cell → Dtype) (h : hasCol df c = true) :
    colDtype (applyColMap df c f dt) c = some (dt ((getCol df c).map f)) := by
  simp [applyColMap, h, colDtype_setCol_self]

theorem getCol_applyColMap_ne (df : DataFrame) (c : String) (f : Cell → Cell)
    (dt : List Cell → Dtype) (c' : String) (h : c' ≠ c) :
    getCol (applyColMap df c f dt) c' = getCol df c' := by
  unfold applyColMap
  by_cases hc : hasCol df c = true
  · simp only [hc, if_true]
    exact getCol_setCol_ne df c c' _ _ h
  · simp [hc]

theorem colDtype_applyColMap_ne (df : DataFrame) (c : String) (f : Cell → Cell)
    (dt : List Cell → Dtype) (c' : String) (h : c' ≠ c) :
    colDtype (applyColMap df c f dt) c' = colDtype df c' := by
  unfold applyColMap
  by_cases hc : hasCol df c = true
  · simp only [hc, if_true]
    exact colDtype_setCol_ne df c c' _ _ h
  · simp [hc]

theorem colNames_phaseFold (f : Cell → Cell) (dt : List Cell → Dtype) (L : List String) :
    ∀ df, colNames (phaseFold f dt df L) = colNames df := by
  induction L with
  | nil => intro df; rfl
  | cons a L ih =>
    intro df
    show colNames (phaseFold f dt (applyColMap df a f dt) L) = colNames df
    rw [ih, colNames_applyColMap]

theorem hasCol_phaseFold (f : Cell → Cell) (dt : List Cell → Dtype) (L : List String)
    (df : DataFrame) (c : String) : hasCol (phaseFold f dt df L) c = hasCol df c := by
  simp [hasCol, colNames_phaseFold]

theorem nrows_phaseFold (f : Cell → Cell) (dt : List Cell → Dtype) (L : List String) :
    ∀ df, (phaseFold f dt df L).nrows = df.nrows := by
  induction L with
  | nil => intro df; rfl
  | cons a L ih =>
    intro df
    show (phaseFold f dt (applyColMap df a f dt) L).nrows = df.nrows
    rw [ih, nrows_applyColMap]

theorem getCol_phaseFold_notMem (f : Cell → Cell) (dt : List Cell → Dtype) :
    ∀ (L : List String) (c : String), c ∉ L → ∀ df,
      getCol (phaseFold f dt df L) c = getCol df c := by
  intro L
  induction L with
  | nil => intro c _ df; rfl
  | cons a L ih =>
    intro c hc df
    have ha : c ≠ a := fun h => hc (by simp [h])
    have hL : c ∉ L := fun h => hc (by simp [h])
    show getCol (phaseFold f dt (applyColMap df a f dt) L) c = getCol df c
    rw [ih c hL, getCol_applyColMap_ne df a f dt c ha]

theorem colDtype_phaseFold_notMem (f : Cell → Cell) (dt : List Cell → Dtype) :
    ∀ (L : List String) (c : String), c ∉ L → ∀ df,
      colDtype (phaseFold f dt df L) c = colDtype df c := by
  intro L
  induction L with
  | nil => intro c _ df; rfl
  | cons a L ih =>
    intro c hc df
    have ha : c ≠ a := fun h => hc (by simp [h])
    have hL : c ∉ L := fun h => hc (by simp [h])
    show colDtype (phaseFold f dt (applyColMap df a f dt) L) c = colDtype df c
    rw [ih c hL, colDtype_applyColMap_ne df a f dt c ha]

theorem getCol_phaseFold_mem (f : Cell → Cell) (dt : List Cell → Dtype) :
    ∀ (L : List String), L.Nodup → ∀ c ∈ L, ∀ df, hasCol df c = true →
      getCol (phaseFold f dt df L) c = (getCol df c).map f := by
  intro L
  induction L with
  | nil => intro _ c hc; simp at hc
  | cons a L ih =>
    intro hnd c hc df h
    show getCol (phaseFold f dt (applyColMap df a f dt) L) c = (getCol df c).map f
    rcases List.mem_cons.mp hc with rfl | hcL
    · have hnotL : c ∉ L := (List.nodup_cons.mp hnd).1
      rw [getCol_phaseFold_notMem f dt L c hnotL, getCol_applyColMap_self df c f dt h]
    · have ha : c ≠ a := by
        rintro rfl
        exact (List.nodup_cons.mp hnd).1 hcL
      rw [ih (List.nodup_cons.mp hnd).2 c hcL _
          (by rw [hasCol_applyColMap]; exact h),
        getCol_applyColMap_ne df a f dt c ha]

theorem colDtype_phaseFold_mem (f : Cell → Cell) (dt : List Cell → Dtype) :
    ∀ (L : List String), L.Nodup → ∀ c ∈ L, ∀ df, hasCol df c = true →
      colDtype (phaseFold f dt df L) c = some (dt ((getCol df c).map f)) := by
  intro L
  induction L with
  | nil => intro _ c hc; simp at hc
  | cons a L ih =>
    intro hnd c hc df h
    show colDtype (phaseFold f dt (applyColMap df a f dt) L) c = some (dt ((getCol df c).map f))
    rcases List.mem_cons.mp hc with rfl | hcL
    · have hnotL : c ∉ L := (List.nodup_cons.mp hnd).1
      rw [colDtype_phaseFold_notMem f dt L c hnotL, colDtype_applyColMap_self df c f dt h]
    · have ha : c ≠ a := by
        rintro rfl
        exact (List.nodup_cons.mp hnd).1 hcL
      rw [ih (List.nodup_cons.mp hnd).2 c hcL _
          (by rw [hasCol_applyColMap]; exact h),
        getCol_applyColMap_ne df a f dt c ha]

theorem getCol_datetimePhase_other (df : DataFrame) (c : String)
    (h1 : c ≠ "created_utc") (h2 : c ≠ "created_date") (h3 : c ≠ "created_hour")
    (h4 : c ≠ "created_day_of_week") : getCol (datetimePhase df) c = getCol df c := by
  unfold datetimePhase
  by_cases h : hasCol df "created_utc" = true
  · simp only [h, if_true]
    rw [getCol_setCol_ne _ _ _ _ _ h4, getCol_setCol_ne _ _ _ _ _ h3,
      getCol_setCol_ne _ _ _ _ _ h2, getCol_setCol_ne _ _ _ _ _ h1]
  · simp [h]

theorem colDtype_datetimePhase_other (df : DataFrame) (c : String)
    (h1 : c ≠ "created_utc") (h2 : c ≠ "created_date") (h3 : c ≠ "created_hour")
    (h4 : c ≠ "created_day_of_week") : colDtype (datetimePhase df) c = colDtype df c := by
  unfold datetimePhase
  by_cases h : hasCol df "created_utc" = true
  · simp only [h, if_true]
    rw [colDtype_setCol_ne _ _ _ _ _ h4, colDtype_setCol_ne _ _ _ _ _ h3,
      colDtype_setCol_ne _ _ _ _ _ h2, colDtype_setCol_ne _ _ _ _ _ h1]
  · simp [h]

theorem hasCol_datetimePhase_other (df : DataFrame) (c : String)
    (h2 : c ≠ "created_date") (h3 : c ≠ "created_hour")
    (h4 : c ≠ "created_day_of_week") : hasCol (datetimePhase df) c = hasCol df c := by
  unfold datetimePhase
  by_cases h : hasCol df "created_utc" = true
  · simp only [h, if_true]
    rw [hasCol_setCol, hasCol_setCol, hasCol_setCol, hasCol_setCol]
    have e2 : (c == "created_date") = false := beq_eq_false_iff_ne.mpr h2
    have e3 : (c == "created_hour") = false := beq_eq_false_iff_ne.mpr h3
    have e4 : (c == "created_day_of_week") = false := beq_eq_false_iff_ne.mpr h4
    rw [e2, e3, e4]
    by_cases h1 : c = "created_utc"
    · subst h1
      simp [h]
    · rw [beq_eq_false_iff_ne.mpr h1]
      simp
  · simp [h]

theorem colDtype_convertTypes_strcol (df : DataFrame) (c : String)
    (hc : c ∈ string_columns) (hn : c ∉ numeric_columns) (hb : c ∉ boolean_columns)
    (h1 : c ≠ "created_utc") (h2 : c ≠ "created_date") (h3 : c ≠ "created_hour")
    (h4 : c ≠ "created_day_of_week") (h : hasCol df c = true) :
    colDtype (convertTypes df) c = some .object := by
  unfold convertTypes booleanPhase numericPhase stringPhase
  rw [colDtype_datetimePhase_other _ _ h1 h2 h3 h4,
    colDtype_phaseFold_notMem _ _ _ _ hb, colDtype_phaseFold_notMem _ _ _ _ hn,
    colDtype_phaseFold_mem _ _ string_columns (by decide) c hc df h]

theorem getCol_convertTypes_numcol (df : DataFrame) (c : String)
    (hc : c ∈ numeric_columns) (hs : c ∉ string_columns) (hb : c ∉ boolean_columns)
    (h1 : c ≠ "created_utc") (h2 : c ≠ "created_date") (h3 : c ≠ "created_hour")
    (h4 : c ≠ "created_day_of_week") (h : hasCol df c = true) :
    getCol (convertTypes df) c = (getCol df c).map toNumericCell := by
  unfold convertTypes booleanPhase numericPhase stringPhase
  rw [getCol_datetimePhase_other _ _ h1 h2 h3 h4,
    getCol_phaseFold_notMem _ _ _ _ hb,
    getCol_phaseFold_mem _ _ numeric_columns (by decide) c hc _
      (by rw [hasCol_phaseFold]; exact h),
    getCol_phaseFold_notMem _ _ _ _ hs]

theorem getCol_convertTypes_boolcol (df : DataFrame) (c : String)
    (hc : c ∈ boolean_columns) (hs : c ∉ string_columns) (hn : c ∉ numeric_columns)
    (h1 : c ≠ "created_utc") (h2 : c ≠ "created_date") (h3 : c ≠ "created_hour")
    (h4 : c ≠ "created_day_of_week") (h : hasCol df c = true) :
    getCol (convertTypes df) c = (getCol df c).map (fun v => .bool v.truthy) := by
  unfold convertTypes booleanPhase numericPhase stringPhase
  rw [getCol_datetimePhase_other _ _ h1 h2 h3 h4,
    getCol_phaseFold_mem _ _ boolean_columns (by decide) c hc _
      (by rw [hasCol_phaseFold, hasCol_phaseFold]; exact h),
    getCol_phaseFold_notMem _ _ _ _ hn, getCol_phaseFold_notMem _ _ _ _ hs]

theorem hasCol_convertTypes_other (df : DataFrame) (c : String)
    (h2 : c ≠ "created_date") (h3 : c ≠ "created_hour")
    (h4 : c ≠ "created_day_of_week") : hasCol (convertTypes df) c = hasCol df c := by
  unfold convertTypes booleanPhase numericPhase stringPhase
  rw [hasCol_datetimePhase_other _ _ h2 h3 h4, hasCol_phaseFold, hasCol_phaseFold,
    hasCol_phaseFold]

end TransformLemmas

section StageTotalityLemmas

open DataTransformer

theorem mapM_isOk {α β : Type} {g : α → Except Unit β} :
    ∀ l : List α, (∀ x ∈ l, ∃ y, g x = .ok y) → ∃ ys, l.mapM g = .ok ys := by
  intro l
  induction l with
  | nil => exact fun _ => ⟨[], rfl⟩
  | cons a l ih =>
    intro h
    obtain ⟨y, hy⟩ := h a (by simp)
    obtain ⟨ys, hys⟩ := ih (fun x hx => h x (by simp [hx]))
    refine ⟨y :: ys, ?_⟩
    rw [List.mapM_cons, hy, hys]
    rfl

theorem hasCol_dropMissing (df : DataFrame) (f c : String) :
    hasCol (dropMissing df f) c = hasCol df c := by
  unfold dropMissing
  by_cases h : hasCol df f = true
  · simp only [h, if_true]
    exact hasCol_applyMask df _ c
  · simp [h]

theorem colNames_dropMissing (df : DataFrame) (f : String) :
    colNames (dropMissing df f) = colNames df := by
  unfold dropMissing
  by_cases h : hasCol df f = true
  · simp only [h, if_true]
    exact colNames_applyMask df _
  · simp [h]

theorem colDtype_dropMissing (df : DataFrame) (f c : String) :
    colDtype (dropMissing df f) c = colDtype df c := by
  unfold dropMissing
  by_cases h : hasCol df f = true
  · simp only [h, if_true]
    exact colDtype_applyMask df _ c
  · simp [h]

theorem getCol_dropMissing_subset (df : DataFrame) (f c : String) :
    ∀ x ∈ getCol (dropMissing df f) c, x ∈ getCol df c := by
  unfold dropMissing
  by_cases h : hasCol df f = true
  · simp only [h, if_true]
    intro x hx
    rw [getCol_applyMask] at hx
    exact (maskFilter_sublist _ _).mem hx
  · simp [h]

theorem stripTextCol_props (df : DataFrame) (f : String)
    (h : hasCol df f = true → (colDtype df f).getD .object = .object) :
    ∃ d', stripTextCol df f = .ok d' ∧ colNames d' = colNames df ∧
      (∀ c, c ≠ f → getCol d' c = getCol df c ∧ colDtype d' c = colDtype df c) ∧
      (hasCol df f = true → colDtype d' f = some .object) := by
  unfold stripTextCol
  by_cases hf : hasCol df f = true
  · rw [if_pos hf, if_pos (h hf)]
    have hf1 : hasCol (setCol df f ((getCol df f).map strAccStrip) .object) f = true := by
      rw [hasCol_setCol]
      simp
    refine ⟨_, rfl, ?_, ?_, ?_⟩
    · rw [colNames_setCol_of_has _ _ _ _ hf1, colNames_setCol_of_has _ _ _ _ hf]
    · intro c hc
      rw [getCol_setCol_ne _ _ _ _ _ hc, getCol_setCol_ne _ _ _ _ _ hc,
        colDtype_setCol_ne _ _ _ _ _ hc, colDtype_setCol_ne _ _ _ _ _ hc]
      exact ⟨rfl, rfl⟩
    · intro _
      exact colDtype_setCol_self _ _ _ _
  · rw [if_neg hf]
    refine ⟨df, rfl, rfl, fun c _ => ⟨rfl, rfl⟩, fun ht => absurd ht hf⟩

theorem colNames_authorPhase (df : DataFrame) : colNames (authorPhase df) = colNames df := by
  unfold authorPhase
  by_cases h : hasCol df "author" = true
  · simp only [h, if_true]
    exact colNames_setCol_of_has _ _ _ _ h
  · simp [h]

theorem getCol_authorPhase_ne (df : DataFrame) (c : String) (hc : c ≠ "author") :
    getCol (authorPhase df) c = getCol df c := by
  unfold authorPhase
  by_cases h : hasCol df "author" = true
  · simp only [h, if_true]
    exact getCol_setCol_ne _ _ _ _ _ hc
  · simp [h]

theorem colDtype_authorPhase_ne (df : DataFrame) (c : String) (hc : c ≠ "author") :
    colDtype (authorPhase df) c = colDtype df c := by
  unfold authorPhase
  by_cases h : hasCol df "author" = true
  · simp only [h, if_true]
    exact colDtype_setCol_ne _ _ _ _ _ hc
  · simp [h]

theorem cleanData_props (df : DataFrame)
    (ht : hasCol df "title" = true → (colDtype df "title").getD .object = .object)
    (hs : hasCol df "selftext" = true → (colDtype df "selftext").getD .object = .object) :
    ∃ d', cleanData df = .ok d' ∧ colNames d' = colNames df ∧
      (∀ c, c ≠ "title" → c ≠ "selftext" → c ≠ "author" →
        (∀ x ∈ getCol d' c, x ∈ getCol df c) ∧ colDtype d' c = colDtype df c) ∧
      (hasCol df "title" = true → colDtype d' "title" = some .object) ∧
      (hasCol df "selftext" = true → colDtype d' "selftext" = some .object) := by
  unfold cleanData
  set d1 := dropMissing (dropMissing df "id") "title" with hd1
  have hd1names : colNames d1 = colNames df := by
    rw [hd1, colNames_dropMissing, colNames_dropMissing]
  have hd1has : ∀ c, hasCol d1 c = hasCol df c := by
    intro c
    simp [hasCol, hd1names]
  have hd1dt : ∀ c, colDtype d1 c = colDtype df c := by
    intro c
    rw [hd1, colDtype_dropMissing, colDtype_dropMissing]
  have hd1sub : ∀ c, ∀ x ∈ getCol d1 c, x ∈ getCol df c := by
    intro c x hx
    exact getCol_dropMissing_subset _ _ _ x
      (getCol_dropMissing_subset _ _ _ x hx)
  obtain ⟨d2, hd2, hd2names, hd2other, hd2title⟩ :=
    stripTextCol_props d1 "title" (by
      intro hh
      rw [hd1dt]
      exact ht (by rw [← hd1has]; exact hh))
  obtain ⟨d3, hd3, hd3names, hd3other, hd3self⟩ :=
    stripTextCol_props d2 "selftext" (by
      intro hh
      have hh' : hasCol df "selftext" = true := by
        rw [← hd1has]
        simpa [hasCol, hd2names] using hh
      have := hs hh'
      rw [(hd2other "selftext" (by decide)).2, hd1dt]
      exact this)
  refine ⟨authorPhase d3, ?_, ?_, ?_, ?_, ?_⟩
  · simp only [hd2, hd3, bind, Except.bind]
  · rw [colNames_authorPhase, hd3names, hd2names, hd1names]
  · intro c hct hcs hca
    constructor
    · intro x hx
      rw [getCol_authorPhase_ne _ _ hca, (hd3other c hcs).1, (hd2other c hct).1] at hx
      exact hd1sub c x hx
    · rw [colDtype_authorPhase_ne _ _ hca, (hd3other c hcs).2, (hd2other c hct).2, hd1dt]
  · intro hh
    rw [colDtype_authorPhase_ne _ _ (by decide), (hd3other "title" (by decide)).2]
    exact hd2title (by rw [hd1has]; exact hh)
  · intro hh
    rw [colDtype_authorPhase_ne _ _ (by decide)]
    exact hd3self (by
      rw [hasCol, hd2names]
      show hasCol d1 "selftext" = true
      rw [hd1has]
      exact hh)

theorem textFeatures_props (df : DataFrame) (f lenName wcName : String)
    (hguard : hasCol df f = true → (colDtype df f).getD .object = .object) :
    ∃ d', textFeatures df f lenName wcName = .ok d' ∧
      ∀ c, c ≠ lenName → c ≠ wcName →
        getCol d' c = getCol df c ∧ colDtype d' c = colDtype df c ∧
          hasCol d' c = (hasCol df c || (c == lenName) || (c == wcName)) := by
  unfold textFeatures
  by_cases hf : hasCol df f = true
  · rw [if_pos hf, if_pos (hguard hf)]
    refine ⟨_, rfl, ?_⟩
    intro c hcl hcw
    have el : (c == lenName) = false := beq_eq_false_iff_ne.mpr hcl
    have ew : (c == wcName) = false := beq_eq_false_iff_ne.mpr hcw
    rw [getCol_setCol_ne _ _ _ _ _ hcw, getCol_setCol_ne _ _ _ _ _ hcl,
      colDtype_setCol_ne _ _ _ _ _ hcw, colDtype_setCol_ne _ _ _ _ _ hcl,
      hasCol_setCol, hasCol_setCol, el, ew]
    exact ⟨rfl, rfl, by simp⟩
  · rw [if_neg hf]
    refine ⟨df, rfl, ?_⟩
    intro c hcl hcw
    have el : (c == lenName) = false := beq_eq_false_iff_ne.mpr hcl
    have ew : (c == wcName) = false := beq_eq_false_iff_ne.mpr hcw
    rw [el, ew]
    exact ⟨rfl, rfl, by simp⟩

theorem getCol_eq_nil_of_not_hasCol (df : DataFrame) (c : String)
    (h : hasCol df c = false) : getCol df c = [] := by
  rw [getCol, findCol_eq_none_of_not_hasCol df c h]

theorem toNumericCell_shape (v : Cell) :
    (∃ q, toNumericCell v = Cell.num q) ∨ toNumericCell v = Cell.nan := by
  cases v with
  | str s =>
    rcases h : parseIntStr s with _ | n
    · right; simp [toNumericCell, h]
    · left; exact ⟨n, by simp [toNumericCell, h]⟩
  | none => right; rfl
  | nan => right; rfl
  | num q => left; exact ⟨q, rfl⟩
  | bool b => left; exact ⟨_, rfl⟩
  | ts t => left; exact ⟨_, rfl⟩

theorem engineerFeatures_ok (df : DataFrame)
    (ht : hasCol df "title" = true → (colDtype df "title").getD .object = .object)
    (hs : hasCol df "selftext" = true → (colDtype df "selftext").getD .object = .object)
    (hsc : ∀ x ∈ getCol df "score", (∃ q, x = Cell.num q) ∨ x = Cell.nan)
    (hnc : ∀ x ∈ getCol df "num_comments", (∃ q, x = Cell.num q) ∨ x = Cell.nan) :
    ∃ d', engineerFeatures df = .ok d' := by
  obtain ⟨d1, hd1, hp1⟩ := textFeatures_props df "title" "title_length" "title_word_count" ht
  have h1s := hp1 "selftext" (by decide) (by decide)
  have h1sc := hp1 "score" (by decide) (by decide)
  have h1nc := hp1 "num_comments" (by decide) (by decide)
  obtain ⟨d2, hd2, hp2⟩ := textFeatures_props d1 "selftext" "selftext_length"
    "selftext_word_count" (by
      intro hh
      rw [h1s.2.1]
      apply hs
      rw [h1s.2.2] at hh
      simpa using hh)
  have h2sc : getCol d2 "score" = getCol df "score" := by
    rw [(hp2 "score" (by decide) (by decide)).1, h1sc.1]
  have h2nc : getCol d2 "num_comments" = getCol df "num_comments" := by
    rw [(hp2 "num_comments" (by decide) (by decide)).1, h1nc.1]
  have hengage : ∃ d3, engagementStage d2 = .ok d3 ∧
      getCol d3 "score" = getCol d2 "score" ∧ hasCol d3 "score" = hasCol d2 "score" := by
    unfold engagementStage
    by_cases hg : (hasCol d2 "score" && hasCol d2 "num_comments") = true
    · have pairsok : ∀ p ∈ (getCol d2 "score").zip (getCol d2 "num_comments"),
          ∃ y, engageCell p = .ok y := by
        rintro ⟨a, b⟩ hp
        obtain ⟨ha, hb⟩ := List.of_mem_zip hp
        rw [h2sc] at ha
        rw [h2nc] at hb
        rcases hsc a ha with ⟨q, rfl⟩ | rfl <;> rcases hnc b hb with ⟨r, rfl⟩ | rfl <;>
          exact ⟨_, rfl⟩
      obtain ⟨vals, hvals⟩ := mapM_isOk _ pairsok
      refine ⟨setCol d2 "engagement_score" vals (numericDtypeOf vals), ?_, ?_, ?_⟩
      · rw [if_pos hg, hvals]
        rfl
      · rw [getCol_setCol_ne _ _ _ _ _ (by decide)]
      · rw [hasCol_setCol]
        simp
    · exact ⟨d2, by rw [if_neg hg], rfl, rfl⟩
  obtain ⟨d3, hd3, h3sc, h3has⟩ := hengage
  have hcut : ∃ d4, cutStage d3 = .ok d4 := by
    unfold cutStage
    by_cases hg : hasCol d3 "score" = true
    · have cellsok : ∀ x ∈ getCol d3 "score", ∃ y, cutCell x = .ok y := by
        intro x hx
        rw [h3sc, h2sc] at hx
        rcases hsc x hx with ⟨q, rfl⟩ | rfl
        · exact ⟨_, rfl⟩
        · exact ⟨_, rfl⟩
      obtain ⟨vals, hvals⟩ := mapM_isOk _ cellsok
      refine ⟨setCol d3 "popularity_category" vals .category, ?_⟩
      rw [if_pos hg, hvals]
      rfl
    · exact ⟨d3, by rw [if_neg hg]⟩
  obtain ⟨d4, hd4⟩ := hcut
  refine ⟨d4, ?_⟩
  simp only [engineerFeatures, hd1, hd2, hd3, hd4, bind, Except.bind]

theorem transformStages_ok (df : DataFrame) :
    ∃ d2, cleanData (DataTransformer.convertTypes df) = .ok d2 ∧
      ∃ d3, engineerFeatures d2 = .ok d3 := by
  have htdt : hasCol (convertTypes df) "title" = true →
      (colDtype (convertTypes df) "title").getD .object = .object := by
    intro hh
    rw [hasCol_convertTypes_other df "title" (by decide) (by decide) (by decide)] at hh
    rw [colDtype_convertTypes_strcol df "title" (by decide) (by decide) (by decide)
      (by decide) (by decide) (by decide) (by decide) hh]
    rfl
  have hsdt : hasCol (convertTypes df) "selftext" = true →
      (colDtype (convertTypes df) "selftext").getD .object = .object := by
    intro hh
    rw [hasCol_convertTypes_other df "selftext" (by decide) (by decide) (by decide)] at hh
    rw [colDtype_convertTypes_strcol df "selftext" (by decide) (by decide) (by decide)
      (by decide) (by decide) (by decide) (by decide) hh]
    rfl
  obtain ⟨d2, hcd, hnames, hother, ht2, hs2⟩ := cleanData_props (convertTypes df) htdt hsdt
  have hnumcells : ∀ c, c = "score" ∨ c = "num_comments" →
      ∀ x ∈ getCol d2 c, (∃ q, x = Cell.num q) ∨ x = Cell.nan := by
    rintro c hcase x hx
    have hxconv : x ∈ getCol (convertTypes df) c := by
      rcases hcase with rfl | rfl
      · exact (hother "score" (by decide) (by decide) (by decide)).1 x hx
      · exact (hother "num_comments" (by decide) (by decide) (by decide)).1 x hx
    by_cases hh : hasCol df c = true
    · have hmem : c ∈ DataTransformer.numeric_columns := by
        rcases hcase with rfl | rfl <;> decide
      rw [getCol_convertTypes_numcol df c hmem
        (by rcases hcase with rfl | rfl <;> decide)
        (by rcases hcase with rfl | rfl <;> decide)
        (by rcases hcase with rfl | rfl <;> decide)
        (by rcases hcase with rfl | rfl <;> decide)
        (by rcases hcase with rfl | rfl <;> decide)
        (by rcases hcase with rfl | rfl <;> decide) hh] at hxconv
      obtain ⟨v, _, rfl⟩ := List.mem_map.mp hxconv
      exact toNumericCell_shape v
    · have hh' : hasCol (convertTypes df) c = false := by
        rw [hasCol_convertTypes_other df c
          (by rcases hcase with rfl | rfl <;> decide)
          (by rcases hcase with rfl | rfl <;> decide)
          (by rcases hcase with rfl | rfl <;> decide)]
        simpa using hh
      rw [getCol_eq_nil_of_not_hasCol _ _ hh'] at hxconv
      exact absurd hxconv (List.not_mem_nil x)
  have hhc : ∀ c, hasCol d2 c = hasCol (convertTypes df) c := by
    intro c
    rw [hasCol, hasCol, hnames]
  refine ⟨d2, hcd, ?_⟩
  apply engineerFeatures_ok
  · intro hh
    rw [ht2 (by rw [← hhc]; exact hh)]
    rfl
  · intro hh
    rw [hs2 (by rw [← hhc]; exact hh)]
    rfl
  · exact hnumcells "score" (Or.inl rfl)
  · exact hnumcells "num_comments" (Or.inr rfl)

theorem transformRedditPosts_ok (df : DataFrame) :
    ∃ out, DataTransformer.transformRedditPosts df = .ok out := by
  by_cases he : isEmptyPd df = true
  · exact ⟨df, by rw [transformRedditPosts, if_pos he]⟩
  · obtain ⟨d2, hcd, d3, hef⟩ := transformStages_ok df
    refine ⟨removeDuplicates d3, ?_⟩
    rw [transformRedditPosts, if_neg he]
    simp only [hcd, hef, bind, Except.bind]

end StageTotalityLemmas

section ValidatorShapeLemmas

open DataValidator

theorem validateStructure_df (df : DataFrame) : (validateStructure df).2.2.2 = df := by
  unfold validateStructure
  split <;> rfl

theorem validateQuality_df (cfg : Cfg) (df : DataFrame) :
    (validateQuality cfg df).2.2.2 = df := rfl

theorem validateBusinessRules_df (now : ℤ) (df : DataFrame) :
    ∀ t, validateBusinessRules now df = .ok t → t.2.2.2 = df := by
  intro t h
  unfold validateBusinessRules at h
  cases hA : scoreChecks df with
  | error e => rw [hA] at h; cases h
  | ok sp =>
    rw [hA] at h
    simp only [bind, Except.bind] at h
    cases hB : commentChecks df with
    | error e => rw [hB] at h; cases h
    | ok ce =>
      rw [hB] at h
      simp only [Except.bind] at h
      cases hC : ratioChecks df with
      | error e => rw [hC] at h; cases h
      | ok re =>
        rw [hC] at h
        simp only [Except.bind, pure, Except.pure] at h
        cases h
        rfl

theorem validate_decompose (cfg : Cfg) (now : ℤ) (df : DataFrame) (r : ValidationResult)
    (df' : DataFrame) (h : validate cfg now df = .ok (r, df')) :
    ∃ t, validateBusinessRules now df = .ok t ∧
      r = { is_valid := ((validateStructure df).1 ++ ((validateQuality cfg df).1 ++ t.1)).isEmpty,
            errors := (validateStructure df).1 ++ ((validateQuality cfg df).1 ++ t.1),
            warnings :=
              (validateStructure df).2.1 ++ ((validateQuality cfg df).2.1 ++ t.2.1),
            stats :=
              (validateStructure df).2.2.1 ++ ((validateQuality cfg df).2.2.1 ++ t.2.2.1) } ∧
      df' = df := by
  unfold validate at h
  rcases hval1 : validateStructure df with ⟨e1, w1, s1, df1⟩
  have hval1' : validateStructure df = (e1, w1, s1, df) := by
    have hdf1 : df1 = df := by
      have := validateStructure_df df
      rw [hval1] at this
      exact this
    rw [hval1, hdf1]
  rw [hval1'] at h
  dsimp only at h
  rcases hval2 : validateQuality cfg df with ⟨e2, w2, s2, df2⟩
  have hval2' : validateQuality cfg df = (e2, w2, s2, df) := by
    have hdf2 : df2 = df := by
      have := validateQuality_df cfg df
      rw [hval2] at this
      exact this
    rw [hval2, hdf2]
  rw [hval2'] at h
  dsimp only at h
  simp only [bind, Except.bind, pure, Except.pure] at h
  cases hb : validateBusinessRules now df with
  | error e =>
    rw [hb] at h
    cases h
  | ok t =>
    rw [hb] at h
    obtain ⟨e3, w3, s3, df3⟩ := t
    have hdf3 : df3 = df := validateBusinessRules_df now df _ hb
    simp only [Except.bind] at h
    cases h
    refine ⟨(e3, w3, s3, df'), rfl, ?_, hdf3⟩
    simp [hval1', hval2']

end ValidatorShapeLemmas

section DedupLemmas

open DataTransformer

theorem keepMask_length [DecidableEq α] :
    ∀ (ks seen : List α), (keepMask seen ks).length = ks.length := by
  intro ks
  induction ks with
  | nil => intro seen; rfl
  | cons k ks ih =>
    intro seen
    by_cases h : k ∈ seen <;> simp [keepMask, h, ih]

theorem removeDuplicates_keepFirst (df : DataFrame) (h : hasCol df "id" = true) :
    (getCol (DataTransformer.removeDuplicates df) "id").map normKey =
      keepFirst ((getCol df "id").map normKey) := by
  unfold DataTransformer.removeDuplicates
  rw [if_pos h, getCol_applyMask, ← maskFilter_map, keepMask_maskFilter]
  congr 1
  simp

theorem removeDuplicates_sublist (df : DataFrame) (c : String) :
    (getCol (DataTransformer.removeDuplicates df) c).Sublist (getCol df c) := by
  unfold DataTransformer.removeDuplicates
  by_cases h : hasCol df "id" = true
  · rw [if_pos h, getCol_applyMask]
    exact maskFilter_sublist _ _
  · rw [if_neg h]

theorem removeDuplicates_idem (df : DataFrame) (hwf : df.wf) :
    DataTransformer.removeDuplicates (DataTransformer.removeDuplicates df) =
      DataTransformer.removeDuplicates df := by
  unfold DataTransformer.removeDuplicates
  by_cases h : hasCol df "id" = true
  · rw [if_pos h]
    set ks := (getCol df "id").map normKey with hks
    set m := keepMask ([] : List Cell) ks with hm
    set df2 := applyMask df m with hdf2
    have hhas2 : hasCol df2 "id" = true := by
      rw [hdf2, hasCol_applyMask]
      exact h
    rw [if_pos hhas2]
    have hid2 : (getCol df2 "id").map normKey = maskFilter m ks := by
      rw [hdf2, getCol_applyMask, ← maskFilter_map, hks]
    rw [hid2]
    have hrepl := keepMask_of_dedup ks ([] : List Cell)
    rw [← hm] at hrepl
    rw [hrepl]
    obtain ⟨col0, hcol0⟩ := findCol_isSome_of_hasCol df "id" h
    have hcol0mem : col0 ∈ df.cols := List.mem_of_find?_eq_some hcol0
    have hlen0 : (getCol df "id").length = df.nrows := by
      rw [getCol, hcol0]
      exact hwf col0 hcol0mem
    have hkslen : ks.length = df.nrows := by
      rw [hks, List.length_map, hlen0]
    have hmlen : m.length = df.nrows := by
      rw [hm, keepMask_length, hkslen]
    set n := (maskFilter m ks).length with hn
    have hn' : n = (m.filter id).length := by
      rw [hn, maskFilter_length m ks (by rw [hkslen, hmlen])]
    have hcollen : ∀ col ∈ df2.cols, col.vals.length = n := by
      intro col hcm
      rw [hdf2] at hcm
      simp only [applyMask, List.mem_map] at hcm
      obtain ⟨col1, hcol1mem, rfl⟩ := hcm
      simp only
      rw [maskFilter_length m col1.vals (by rw [hwf col1 hcol1mem, hmlen]), hn']
    have hnrows2 : df2.nrows = n := by
      rw [hdf2]
      simp [applyMask, hn']
    have hfiltrep : (List.replicate n true).filter id = List.replicate n true := by
      apply List.filter_eq_self.mpr
      intro a ha
      have := List.eq_of_mem_replicate ha
      subst this
      rfl
    have h2 : df2.cols.map
        (fun col => (⟨col.name, col.dtype, maskFilter (List.replicate n true) col.vals⟩ : Col))
        = df2.cols := by
      have hpt : ∀ col ∈ df2.cols,
          (⟨col.name, col.dtype, maskFilter (List.replicate n true) col.vals⟩ : Col)
            = id col := by
        intro col hcm
        rw [maskFilter_true _ _ (le_of_eq (hcollen col hcm))]
        cases col
        rfl
      rw [List.map_congr_left hpt, List.map_id]
    show applyMask df2 (List.replicate n true) = df2
    unfold applyMask
    rw [hfiltrep, h2, List.length_replicate, ← hnrows2]
  · rw [if_neg h, if_neg h]

end DedupLemmas

section Claims

open DataValidator DataTransformer RedditExtractor RedditPipeline

/-- C2: for every ValidationResult produced by DataValidator.validate or
DataValidator.validate_schema, is_valid holds iff the errors list is empty;
warnings play no role in validity. -/
theorem claim_C2_is_valid_iff_no_errors :
    (∀ (cfg : Cfg) (now : ℤ) (df : DataFrame) (r : ValidationResult) (df' : DataFrame),
      validate cfg now df = .ok (r, df') → (r.is_valid = true ↔ r.errors = [])) ∧
    (∀ (df : DataFrame) (schema : List (String × String)),
      (validateSchema df schema).is_valid = true ↔ (validateSchema df schema).errors = []) := by
  constructor
  · intro cfg now df r df' h
    obtain ⟨t, _, hr, _⟩ := validate_decompose cfg now df r df' h
    rw [hr]
    simp [List.isEmpty_iff]
  · intro df schema
    unfold validateSchema
    simp [List.isEmpty_iff]

theorem claim_C2_witness :
    (({ is_valid := false, errors := [VMsg.dfEmpty, VMsg.tooFewRows 0 1], warnings := [],
        stats := [("null_percentages", StatVal.pctDict [])] } : ValidationResult).is_valid = true
      ↔ ({ is_valid := false, errors := [VMsg.dfEmpty, VMsg.tooFewRows 0 1], warnings := [],
             stats := [("null_percentages", StatVal.pctDict [])] } : ValidationResult).errors
           = []) :=
  claim_C2_is_valid_iff_no_errors.1 defaultCfg 0 emptyDataFrame _ emptyDataFrame (by decide)

/-- C3: for a non-empty dataset, a column's null-percentage error fires iff
its null percentage strictly exceeds the configured ceiling, and its warning
fires iff the percentage strictly exceeds half the ceiling while being at most
the ceiling. -/
theorem claim_C3_null_pct_thresholds :
    ∀ (cfg : Cfg) (df : DataFrame) (col : Col), 0 < df.nrows → col ∈ df.cols →
      ((VMsg.nullPctError col.name (nullPct col.vals df.nrows) cfg.max_null_percentage ∈
          (validateQuality cfg df).1) ↔
        nullPct col.vals df.nrows > cfg.max_null_percentage) ∧
      ((VMsg.nullPctWarn col.name (nullPct col.vals df.nrows) ∈
          (validateQuality cfg df).2.1) ↔
        (cfg.max_null_percentage / 2 < nullPct col.vals df.nrows ∧
          nullPct col.vals df.nrows ≤ cfg.max_null_percentage)) := by
  intro cfg df col _ hmem
  have hpmem : (col.name, nullPct col.vals df.nrows) ∈
      df.cols.map (fun c => (c.name, nullPct c.vals df.nrows)) :=
    List.mem_map.mpr ⟨col, hmem, rfl⟩
  have hq1 : (validateQuality cfg df).1 =
      (if df.nrows < cfg.min_rows then [VMsg.tooFewRows df.nrows cfg.min_rows] else [])
      ++ (if hasCol df "id" then
            (let dc := dupCount ((getCol df "id").map normKey)
             ((if dc > 0 && cfg.require_unique_ids then [VMsg.dupIds dc] else []),
              (if dc > 0 && !cfg.require_unique_ids then [VMsg.dupIds dc] else []),
              ([("duplicate_ids", StatVal.natS dc)] : Stats)))
          else ([], [], [])).1
      ++ (df.cols.map (fun c => (c.name, nullPct c.vals df.nrows))).filterMap (fun p =>
            if p.2 > cfg.max_null_percentage then
              some (VMsg.nullPctError p.1 p.2 cfg.max_null_percentage)
            else Option.none)
      ++ (if hasCol df "title" then
            (let n := ((getCol df "title").filter (fun c => pyStrip c.pyStr = "")).length
             if n > 0 then [VMsg.emptyTitles n] else [])
          else []) := rfl
  have hq2 : (validateQuality cfg df).2.1 =
      (if hasCol df "id" then
          (let dc := dupCount ((getCol df "id").map normKey)
           ((if dc > 0 && cfg.require_unique_ids then [VMsg.dupIds dc] else []),
            (if dc > 0 && !cfg.require_unique_ids then [VMsg.dupIds dc] else []),
            ([("duplicate_ids", StatVal.natS dc)] : Stats)))
        else ([], [], [])).2.1
      ++ (df.cols.map (fun c => (c.name, nullPct c.vals df.nrows))).filterMap (fun p =>
          if p.2 > cfg.max_null_percentage then Option.none
          else if p.2 > qDiv cfg.max_null_percentage 2 then some (VMsg.nullPctWarn p.1 p.2)
          else Option.none) := rfl
  constructor
  · rw [hq1]
    constructor
    · intro hin
      rcases List.mem_append.mp hin with habc | h4
      rotate_left
      · revert h4
        split <;> (try split) <;> simp
      rcases List.mem_append.mp habc with hab | h3
      rotate_left
      · obtain ⟨p, _, heq⟩ := List.mem_filterMap.mp h3
        revert heq
        split
        · intro heq
          simp only [Option.some.injEq, VMsg.nullPctError.injEq] at heq
          obtain ⟨_, hb, _⟩ := heq
          rw [← hb]
          assumption
        · intro heq
          cases heq
      rcases List.mem_append.mp hab with h1 | h2
      · revert h1
        split <;> simp
      · revert h2
        split <;> (try split) <;> simp
    · intro hgt
      refine List.mem_append.mpr (Or.inl (List.mem_append.mpr (Or.inr ?_)))
      exact List.mem_filterMap.mpr ⟨_, hpmem, by rw [if_pos hgt]⟩
  · rw [hq2]
    constructor
    · intro hin
      rcases List.mem_append.mp hin with h1 | h2
      · revert h1
        split <;> (try split) <;> simp
      · obtain ⟨p, _, heq⟩ := List.mem_filterMap.mp h2
        revert heq
        split
        · intro heq
          cases heq
        · rename_i hnotgt
          split
          · rename_i hgt2
            intro heq
            simp only [Option.some.injEq, VMsg.nullPctWarn.injEq] at heq
            obtain ⟨_, hb⟩ := heq
            rw [qDiv_eq] at hgt2
            constructor
            · rw [← hb]
              exact hgt2
            · rw [← hb]
              exact not_lt.mp hnotgt
          · intro heq
            cases heq
    · rintro ⟨hhalf, hle⟩
      refine List.mem_append.mpr (Or.inr ?_)
      refine List.mem_filterMap.mpr ⟨_, hpmem, ?_⟩
      rw [if_neg (not_lt.mpr hle), if_pos (show _ > qDiv cfg.max_null_percentage 2 by rw [qDiv_eq]; exact hhalf)]

theorem claim_C3_witness :
    ((VMsg.nullPctError "x" (nullPct [Cell.num 1, Cell.num 2] dfNoTitle.nrows)
        defaultCfg.max_null_percentage ∈ (validateQuality defaultCfg dfNoTitle).1) ↔
      nullPct [Cell.num 1, Cell.num 2] dfNoTitle.nrows > defaultCfg.max_null_percentage) ∧
    ((VMsg.nullPctWarn "x" (nullPct [Cell.num 1, Cell.num 2] dfNoTitle.nrows) ∈
        (validateQuality defaultCfg dfNoTitle).2.1) ↔
      (defaultCfg.max_null_percentage / 2 < nullPct [Cell.num 1, Cell.num 2] dfNoTitle.nrows ∧
        nullPct [Cell.num 1, Cell.num 2] dfNoTitle.nrows ≤ defaultCfg.max_null_percentage)) :=
  claim_C3_null_pct_thresholds defaultCfg dfNoTitle ⟨"x", .int64, [.num 1, .num 2]⟩
    (by decide) (by decide)

/-- C8 counterexample: the claim quantifies over every dataset lacking a title
column, but the empty DataFrame lacks one and validate returns only the
empty-frame and row-floor errors — is_valid is false, yet no error message
mentions "Missing required columns" (the structure tier returns early). -/
theorem claim_C8_counterexample_empty_frame :
    validate defaultCfg 0 emptyDataFrame =
      .ok ({ is_valid := false, errors := [VMsg.dfEmpty, VMsg.tooFewRows 0 1], warnings := [],
             stats := [("null_percentages", StatVal.pctDict [])] }, emptyDataFrame) ∧
    hasCol emptyDataFrame "title" = false ∧
    ([VMsg.dfEmpty, VMsg.tooFewRows 0 1].all
      (fun m => !decide (Mentions "Missing required columns" m.render))) = true := by
  refine ⟨by decide, by decide, by decide⟩

/-- C8 (amended): for every dataset that is non-empty in the pandas sense and
lacks a title column, whenever validate returns a result, that result has
is_valid false and carries an error whose message mentions
"Missing required columns". -/
theorem claim_C8_missing_title_invalid :
    ∀ (cfg : Cfg) (now : ℤ) (df : DataFrame) (r : ValidationResult) (df' : DataFrame),
      isEmptyPd df = false → hasCol df "title" = false →
      validate cfg now df = .ok (r, df') →
      r.is_valid = false ∧ ∃ m ∈ r.errors, Mentions "Missing required columns" m.render := by
  intro cfg now df r df' hne htitle h
  obtain ⟨t, _, hr, _⟩ := validate_decompose cfg now df r df' h
  have hmiss : "title" ∈ REQUIRED_COLUMNS.filter (fun c => !hasCol df c) := by
    simp [REQUIRED_COLUMNS, htitle]
  have hne' : (REQUIRED_COLUMNS.filter (fun c => !hasCol df c)).isEmpty = false := by
    cases hfil : REQUIRED_COLUMNS.filter (fun c => !hasCol df c) with
    | nil => rw [hfil] at hmiss; cases hmiss
    | cons a l => rfl
  have hstruct : VMsg.missingRequired (REQUIRED_COLUMNS.filter (fun c => !hasCol df c)) ∈
      (validateStructure df).1 := by
    unfold validateStructure
    simp only [hne, Bool.false_eq_true, if_false, hne']
    exact List.mem_append.mpr (Or.inl (by simp))
  have hmem : VMsg.missingRequired (REQUIRED_COLUMNS.filter (fun c => !hasCol df c)) ∈
      (validateStructure df).1 ++ ((validateQuality cfg df).1 ++ t.1) :=
    List.mem_append.mpr (Or.inl hstruct)
  rw [hr]
  constructor
  · show ((validateStructure df).1 ++ ((validateQuality cfg df).1 ++ t.1)).isEmpty = false
    obtain ⟨x, l', hcons⟩ :=
      List.exists_cons_of_ne_nil (List.ne_nil_of_mem hmem)
    rw [hcons]
    rfl
  · refine ⟨VMsg.missingRequired (REQUIRED_COLUMNS.filter (fun c => !hasCol df c)), hmem, ?_⟩
    show Mentions "Missing required columns"
      ("Missing required columns: " ++ pyListRepr (REQUIRED_COLUMNS.filter (fun c => !hasCol df c)))
    unfold Mentions
    have h1 : "Missing required columns".data <+: "Missing required columns: ".data := by decide
    have h2 : "Missing required columns: ".data <+:
        ("Missing required columns: "
          ++ pyListRepr (REQUIRED_COLUMNS.filter (fun c => !hasCol df c))).data := by
      rw [String.data_append]
      exact List.prefix_append _ _
    exact (h1.trans h2).isInfix

theorem claim_C8_witness :
    ({ is_valid := false, errors := [VMsg.missingRequired ["id", "title", "subreddit"]],
       warnings := [VMsg.unexpectedCols ["x"]],
       stats := [("total_rows", StatVal.natS 2), ("total_columns", StatVal.natS 1),
                 ("null_percentages", StatVal.pctDict [("x", 0)])] } : ValidationResult).is_valid
        = false ∧
      ∃ m ∈ ({ is_valid := false, errors := [VMsg.missingRequired ["id", "title", "subreddit"]],
               warnings := [VMsg.unexpectedCols ["x"]],
               stats := [("total_rows", StatVal.natS 2), ("total_columns", StatVal.natS 1),
                         ("null_percentages", StatVal.pctDict [("x", 0)])] }
          : ValidationResult).errors,
        Mentions "Missing required columns" m.render :=
  claim_C8_missing_title_invalid defaultCfg 0 dfNoTitle _ dfNoTitle
    (by decide) (by decide) (by decide)

/-- C4 counterexample: validate consults the wall clock for the future-dates
check, so two calls on the same unchanged dataset at different times return
different ValidationResults (a timestamp between the two clock readings flips
the future-dates error). -/
theorem claim_C4_counterexample_clock :
    validate defaultCfg 50 dfFutureClock ≠ validate defaultCfg 150 dfFutureClock := by
  decide

/-- C4 (amended): validate never mutates its input — the dataset it hands
back is the one it received — and it is deterministic for a fixed clock
reading: re-running it on the unchanged dataset with the same clock returns
the same ValidationResult. -/
theorem claim_C4_validate_pure_fixed_clock :
    ∀ (cfg : Cfg) (now : ℤ) (df : DataFrame) (r : ValidationResult) (df' : DataFrame),
      validate cfg now df = .ok (r, df') →
      df' = df ∧ validate cfg now df' = .ok (r, df') := by
  intro cfg now df r df' h
  obtain ⟨t, _, _, hdf⟩ := validate_decompose cfg now df r df' h
  refine ⟨hdf, ?_⟩
  rw [hdf]
  rw [hdf] at h
  exact h

theorem claim_C4_witness :
    emptyDataFrame = emptyDataFrame ∧
      validate defaultCfg 0 emptyDataFrame =
        .ok ({ is_valid := false, errors := [VMsg.dfEmpty, VMsg.tooFewRows 0 1], warnings := [],
               stats := [("null_percentages", StatVal.pctDict [])] }, emptyDataFrame) :=
  claim_C4_validate_pure_fixed_clock defaultCfg 0 emptyDataFrame _ emptyDataFrame (by decide)

/-- C9: deduplication keeps the first occurrence of each id (null ids
collapsing to NaN as pandas does), never reorders the surviving rows, is
idempotent on well-formed frames, and on a concrete 3-row extraction-built
dataset with one repeated id the transformer output has 2 rows with 2
distinct ids. -/
theorem claim_C9_dedup_keep_first :
    (∀ df : DataFrame, hasCol df "id" = true →
      (getCol (removeDuplicates df) "id").map normKey =
        keepFirst ((getCol df "id").map normKey)) ∧
    (∀ (df : DataFrame) (c : String),
      (getCol (removeDuplicates df) c).Sublist (getCol df c)) ∧
    (∀ df : DataFrame, df.wf →
      removeDuplicates (removeDuplicates df) = removeDuplicates df) ∧
    (transformRedditPosts dfScenario).toOption.map
      (fun d => (d.nrows, (keepFirst ((getCol d "id").map normKey)).length)) =
      some (2, 2) :=
  ⟨removeDuplicates_keepFirst, removeDuplicates_sublist, removeDuplicates_idem,
   by decide⟩

/-- Witness for C9: the hypotheses hold at the concrete scenario frame. -/
theorem claim_C9_witness :
    (getCol (removeDuplicates dfScenario) "id").map normKey =
      keepFirst ((getCol dfScenario "id").map normKey) ∧
    removeDuplicates (removeDuplicates dfScenario) = removeDuplicates dfScenario :=
  ⟨claim_C9_dedup_keep_first.1 dfScenario (by decide),
   claim_C9_dedup_keep_first.2.2.1 dfScenario (by decide)⟩

/-- C10 counterexample: a boolean column holding a Python None is coerced by
astype(bool) to False, not preserved as a null — so "nulls are preserved" is
wrong for the boolean columns. -/
theorem claim_C10_counterexample_none_to_false :
    getCol (convertTypes dfNullBool) "is_self" = [Cell.bool false] ∧
      (Cell.bool false).isNull = false :=
  ⟨by decide, by decide⟩

/-- C10 (amended): type coercion rewrites every present boolean column
cell-wise to the Python truthiness of its value — None and False map to
False, NaN and every other non-empty value to True — and the coerced column
never contains a null afterwards. -/
theorem claim_C10_bool_truthiness :
    ∀ (df : DataFrame) (c : String), c ∈ boolean_columns → hasCol df c = true →
      getCol (convertTypes df) c = (getCol df c).map (fun v => Cell.bool v.truthy) ∧
      ∀ x ∈ getCol (convertTypes df) c, x.isNull = false := by
  intro df c hc h
  have hmain : getCol (convertTypes df) c =
      (getCol df c).map (fun v => Cell.bool v.truthy) := by
    fin_cases hc <;>
      exact getCol_convertTypes_boolcol df _ (by decide) (by decide) (by decide)
        (by decide) (by decide) (by decide) (by decide) h
  refine ⟨hmain, ?_⟩
  intro x hx
  rw [hmain] at hx
  obtain ⟨v, _, rfl⟩ := List.mem_map.mp hx
  rfl

/-- Witness for C10: the amended theorem applied to the concrete None-valued
is_self column. -/
theorem claim_C10_witness :
    getCol (convertTypes dfNullBool) "is_self" =
      (getCol dfNullBool "is_self").map (fun v => Cell.bool v.truthy) :=
  (claim_C10_bool_truthiness dfNullBool "is_self" (by decide) (by decide)).1

theorem lookup_map_key (g : String → Cell) :
    ∀ (l : List String) (f : String), f ∈ l →
      List.lookup f (l.map (fun x => (x, g x))) = some (g f) := by
  intro l
  induction l with
  | nil => intro f hf; cases hf
  | cons a l ih =>
    intro f hf
    by_cases hfa : f = a
    · subst hfa; simp [List.lookup]
    · have hfl : f ∈ l := by
        rcases List.mem_cons.mp hf with h | h
        · exact absurd h hfa
        · exact h
      have hba : (f == a) = false := beq_eq_false_iff_ne.mpr hfa
      simp [List.lookup, hba, ih f hfl]

/-- C7: per-item field extraction is total — for every item, including ones
whose attribute accesses raise, the record has exactly the 15 POST_FIELDS
keys in order, every field is present, and any field whose retrieval or
normalization fails comes out as None rather than being omitted or
propagating the exception. -/
theorem claim_C7_extract_fields_total :
    ∀ item : Item,
      (extractPostFields item).map Prod.fst = POST_FIELDS ∧
      ∀ f ∈ POST_FIELDS,
        List.lookup f (extractPostFields item) = some (extractField item f) ∧
        ((rawGet item f).bind (normField f) = .error () →
          extractField item f = Cell.none) := by
  intro item
  constructor
  · rfl
  · intro f hf
    refine ⟨lookup_map_key (extractField item) POST_FIELDS f hf, ?_⟩
    intro herr
    unfold extractField
    rw [herr]

/-- Witness for C7: an item whose title access raises still yields the full
key list, with title mapped to None. -/
theorem claim_C7_witness :
    (extractPostFields itemRaise).map Prod.fst = POST_FIELDS ∧
      List.lookup "title" (extractPostFields itemRaise) = some Cell.none := by
  refine ⟨(claim_C7_extract_fields_total itemRaise).1, ?_⟩
  have h := (claim_C7_extract_fields_total itemRaise).2 "title" (by decide)
  rw [h.1, h.2 (by decide)]

/-- C6 counterexample: an invalid sort mode does abort before fetching, but
the ValueError is raised inside the try block and re-wrapped by the generic
handler, so the caller observes a RedditAPIException ("Post extraction
failed: Invalid sort method: ...") rather than the unwrapped
invalid-argument error. -/
theorem claim_C6_counterexample_wrapped_error :
    extractPosts (fun _ => .ok []) "best" =
      .error (.redditAPI "Post extraction failed: Invalid sort method: best") ∧
      isInvalidArg (extractPosts (fun _ => .ok []) "best") = false :=
  ⟨by decide, by decide⟩

/-- C6 (amended): for every sort mode outside {top, hot, new, rising},
extract_posts fails uniformly in the retrieval strategies — so nothing is
fetched — with a RedditAPIException wrapping the invalid-sort ValueError
message. -/
theorem claim_C6_invalid_sort_fails_fast :
    ∀ (fetch : String → Except PyErr (List Item)) (sort : String),
      validSorts.contains sort = false →
      extractPosts fetch sort =
        .error (.redditAPI ("Post extraction failed: Invalid sort method: " ++ sort)) := by
  intro fetch sort h
  unfold extractPosts
  rw [h]
  rfl

/-- Witness for C6: a concrete invalid sort mode, with the fetch strategy
returning successfully (and being ignored). -/
theorem claim_C6_witness :
    extractPosts (fun _ => .ok [sampleItem "a"]) "controversial" =
      .error (.redditAPI ("Post extraction failed: Invalid sort method: "
        ++ "controversial")) :=
  claim_C6_invalid_sort_fails_fast (fun _ => .ok [sampleItem "a"]) "controversial"
    (by decide)

theorem foldl_skip_errors :
    ∀ (rs : List (Except PyErr (List RawRecord))) (acc : List RawRecord),
      (∀ x ∈ rs, ∃ e, x = .error e) →
      rs.foldl (fun acc r =>
        match r with
        | .ok ps => acc ++ ps
        | .error _ => acc) acc = acc := by
  intro rs
  induction rs with
  | nil => intro acc _; rfl
  | cons r rs ih =>
    intro acc hall
    obtain ⟨e, rfl⟩ := hall r (by simp)
    exact ih acc (fun x hx => hall x (by simp [hx]))

/-- C1: when every per-subreddit extraction fails, batch aggregation returns
an empty DataFrame instead of raising, and the pipeline run aborts with an
exception mentioning "No data extracted" without ever invoking the sink. -/
theorem claim_C1_all_failures_abort_no_sink :
    ∀ (cfg : DataValidator.Cfg) (now : ℤ)
      (results : List (Except PyErr (List RawRecord)))
      (doTransform doValidate : Bool) (outputPath : String),
      (∀ x ∈ results, ∃ e, x = .error e) →
      extractPostsBatch results = emptyDataFrame ∧
      pipelineRun cfg now results doTransform doValidate outputPath =
        ⟨.error ("Pipeline execution failed: " ++ "No data extracted from Reddit"),
          false⟩ ∧
      Mentions "No data extracted"
        ("Pipeline execution failed: " ++ "No data extracted from Reddit") := by
  intro cfg now results dT dV op hall
  have hbatch : extractPostsBatch results = emptyDataFrame := by
    rw [extractPostsBatch, foldl_skip_errors results [] hall]
    rfl
  refine ⟨hbatch, ?_, by decide⟩
  rw [pipelineRun, hbatch]
  rfl

/-- Witness for C1: a batch consisting of one failed partition. -/
theorem claim_C1_witness :
    extractPostsBatch [.error (.redditAPI "boom")] = emptyDataFrame ∧
    pipelineRun DataValidator.defaultCfg 0 [.error (.redditAPI "boom")]
        true true "s3://bucket/key" =
      ⟨.error ("Pipeline execution failed: " ++ "No data extracted from Reddit"),
        false⟩ ∧
    Mentions "No data extracted"
      ("Pipeline execution failed: " ++ "No data extracted from Reddit") :=
  claim_C1_all_failures_abort_no_sink DataValidator.defaultCfg 0
    [.error (.redditAPI "boom")] true true "s3://bucket/key"
    (fun x hx => ⟨.redditAPI "boom", by simpa using hx⟩)

/-- C5: on datasets built from extraction output, every transformation stage
succeeds — type conversion and deduplication are total functions, and
cleaning and feature engineering never return the error that would trigger
the ProcessingException wrapper — so transform_reddit_posts always returns a
DataFrame. -/
theorem claim_C5_transform_total_on_extracted :
    ∀ recs : List RawRecord, FromExtractor recs →
      (∃ d2, cleanData (convertTypes (dfOfRecords recs)) = .ok d2 ∧
        ∃ d3, engineerFeatures d2 = .ok d3) ∧
      ∃ out, transformRedditPosts (dfOfRecords recs) = .ok out := by
  intro recs _
  exact ⟨transformStages_ok (dfOfRecords recs),
    transformRedditPosts_ok (dfOfRecords recs)⟩

/-- Witness for C5: a one-item extraction batch transforms successfully. -/
theorem claim_C5_witness :
    ∃ out, transformRedditPosts
      (dfOfRecords [extractPostFields (sampleItem "a")]) = .ok out :=
  (claim_C5_transform_total_on_extracted [extractPostFields (sampleItem "a")]
    (fun r hr => ⟨sampleItem "a", List.eq_of_mem_singleton hr⟩)).2

end Claims

end RedditPipelineModel
